import Mathlib

set_option maxHeartbeats 1000000

namespace KanaDojo

/-!
Shallow embedding of the kana-dojo theme system (src/unnamed/part_005),
the streak calendar grid (src/unnamed/part_004, StreakStats.tsx) and the
streak computations.  JavaScript strings are Lean strings; JS string
comparison and prefix tests are embedded as structurally recursive
functions over the character lists so that they evaluate by kernel
reduction.  DOM and store writes are modelled as an explicit effect
trace applied to a visual-state record.
-/

/-! ## JavaScript string primitives -/

/-- Lexicographic strict comparison of character lists, mirroring the
JavaScript relational comparison of strings (code-unit order). -/
def lexLt : List Char → List Char → Bool
  | [], [] => false
  | [], _ :: _ => true
  | _ :: _, [] => false
  | a :: as, b :: bs => if a < b then true else if b < a then false else lexLt as bs

/-- JavaScript string comparison a < b. -/
def strLt (a b : String) : Bool := lexLt a.data b.data

/-- JavaScript String.prototype.startsWith. -/
def strStartsWith (s p : String) : Bool := p.data.isPrefixOf s.data

/-! ## JavaScript Map semantics over association lists

A JS Map keeps unique keys in insertion order; set replaces in place,
delete removes, get returns the value or undefined. -/

/-- JS Map.prototype.set on an association list (replace first matching
key in place, else append). -/
def mapSet {α : Type} : List (String × α) → String → α → List (String × α)
  | [], k, v => [(k, v)]
  | p :: m, k, v => if p.1 == k then (k, v) :: m else p :: mapSet m k v

/-- JS Map.prototype.get (undefined becomes none). -/
def mapGet {α : Type} (m : List (String × α)) (k : String) : Option α :=
  (m.find? (fun p => p.1 == k)).map (fun p => p.2)

/-! ## Theme system data model (src/unnamed/part_005) -/

/-- A fully derived theme, mirroring the source interface Theme. -/
structure Theme where
  id : String
  backgroundColor : String
  cardColor : String
  borderColor : String
  mainColor : String
  mainColorAccent : String
  secondaryColor : String
  secondaryColorAccent : String
  deriving DecidableEq

/-- Modelled from the spec: themeColors.ts is not under src/.  The spec
describes deriveColors as a pure color-space transform, so the three
generators (generateCardColor, generateBorderColor, generateAccentColor)
are modelled as an arbitrary triple of pure functions. -/
structure ColorGen where
  card : String → Bool → String
  border : String → Bool → String
  accent : String → String

/-- Modelled from the spec: themeDefinitions.ts is not under src/.  A
BaseTheme is the author-defined minimal palette
(id, backgroundColor, mainColor, secondaryColor, optional wallpaperId). -/
structure BaseTheme where
  id : String
  backgroundColor : String
  mainColor : String
  secondaryColor : String
  wallpaperId : Option String
  deriving DecidableEq

/-- Modelled from the spec: a base theme group (name, isLight flag,
member themes), as consumed by buildThemeGroup in the source. -/
structure BaseGroup where
  name : String
  isLight : Bool
  themes : List BaseTheme

/-- The module-level constants the theme system closes over: the color
generators and the static baseThemeSets. -/
structure Config where
  gen : ColorGen
  baseThemeSets : List BaseGroup

/-- Source legacyThemeAliases map. -/
def legacyThemeAliases : List (String × String) := [("neon-city-glass", "neon-city")]

/-- Source resolveThemeId: legacy alias lookup with fallback to the id. -/
def resolveThemeId (themeId : String) : String :=
  (mapGet legacyThemeAliases themeId).getD themeId

/-- Source premiumThemeIds: the ids of the group whose name starts with
"Premium", or the empty set when no such group exists. -/
def premiumThemeIds (cfg : Config) : List String :=
  ((cfg.baseThemeSets.find? (fun g => strStartsWith g.name "Premium")).map
    (fun g => g.themes.map (fun t => t.id))).getD []

/-- Source isPremiumThemeId: static premium set or custom- id prefix,
both tested on the alias-resolved id. -/
def isPremiumThemeId (cfg : Config) (themeId : String) : Bool :=
  let resolved := resolveThemeId themeId
  (premiumThemeIds cfg).contains resolved || strStartsWith resolved "custom-"

/-- Source getThemeDefaultWallpaperId: custom wallpaper themes use their
own id; otherwise the first group whose matching theme declares a
wallpaperId supplies it. -/
def getThemeDefaultWallpaperId (cfg : Config) (themeId : String) : Option String :=
  let resolvedId := resolveThemeId themeId
  if strStartsWith resolvedId "custom-" then some resolvedId
  else cfg.baseThemeSets.findSome? (fun g =>
    (g.themes.find? (fun t => t.id == resolvedId)).bind (fun t => t.wallpaperId))

/-- Source PREMIUM_THEME_VARIABLES.backgroundColor. -/
def premiumBackgroundColor : String := "oklch(0% 0 0 / 0.95)"

/-- Source PREMIUM_THEME_VARIABLES.cardColor. -/
def premiumCardColor : String := "oklch(20% 0.01 255 / 0.85)"

/-- Source PREMIUM_THEME_VARIABLES.borderColor. -/
def premiumBorderColor : String := "oklch(30% 0.01 255 / 0.85)"

/-- Source PREMIUM_THEME_VARIABLES.mainColor. -/
def premiumMainColor : String := "oklch(100% 0 0)"

/-- Source PREMIUM_THEME_VARIABLES.secondaryColor. -/
def premiumSecondaryColor : String := "oklch(85% 0 0)"

/-- The seven global presentation variables applyTheme writes
(the effectiveTheme object of the source). -/
structure EffectiveTheme where
  backgroundColor : String
  cardColor : String
  borderColor : String
  mainColor : String
  mainColorAccent : String
  secondaryColor : String
  secondaryColorAccent : String
  deriving DecidableEq

/-- Source getPremiumThemeVariables: the fixed premium variables plus
the accents derived from them. -/
def getPremiumThemeVariables (cfg : Config) : EffectiveTheme :=
  { backgroundColor := premiumBackgroundColor
    cardColor := premiumCardColor
    borderColor := premiumBorderColor
    mainColor := premiumMainColor
    mainColorAccent := cfg.gen.accent premiumMainColor
    secondaryColor := premiumSecondaryColor
    secondaryColorAccent := cfg.gen.accent premiumSecondaryColor }

/-- Source getModifiedCardColor. -/
def getModifiedCardColor (cfg : Config) (themeId : String) (cardColor : String) : String :=
  if isPremiumThemeId cfg themeId then premiumCardColor else cardColor

/-- Source getModifiedBorderColor. -/
def getModifiedBorderColor (cfg : Config) (themeId : String) (borderColor : String) : String :=
  if isPremiumThemeId cfg themeId then premiumBorderColor else borderColor

/-- Source buildTheme: complete a BaseTheme with generated derived colors. -/
def buildTheme (cfg : Config) (base : BaseTheme) (isLight : Bool) : Theme :=
  { id := base.id
    backgroundColor := base.backgroundColor
    cardColor := cfg.gen.card base.backgroundColor isLight
    borderColor := cfg.gen.border base.backgroundColor isLight
    mainColor := base.mainColor
    mainColorAccent := cfg.gen.accent base.mainColor
    secondaryColor := base.secondaryColor
    secondaryColorAccent := cfg.gen.accent base.secondaryColor }

/-- The id-to-theme map getThemeMap builds from themeSets (built-in
themes only), inserting group by group, theme by theme. -/
def buildBuiltinMap (cfg : Config) : List (String × Theme) :=
  cfg.baseThemeSets.foldl (fun m g =>
    g.themes.foldl (fun m2 b =>
      let t := buildTheme cfg b g.isLight
      mapSet m2 t.id t) m) []

/-- A ThemeTemplate from the custom theme store
(source buildThemeFromTemplate argument). -/
structure ThemeTemplate where
  id : String
  backgroundColor : String
  cardColor : String
  borderColor : String
  mainColor : String
  secondaryColor : String
  deriving DecidableEq

/-- Source buildThemeFromTemplate: template plus generated accents. -/
def buildThemeFromTemplate (cfg : Config) (tpl : ThemeTemplate) : Theme :=
  { id := tpl.id
    backgroundColor := tpl.backgroundColor
    cardColor := tpl.cardColor
    borderColor := tpl.borderColor
    mainColor := tpl.mainColor
    mainColorAccent := cfg.gen.accent tpl.mainColor
    secondaryColor := tpl.secondaryColor
    secondaryColorAccent := cfg.gen.accent tpl.secondaryColor }

/-- Source buildCustomWallpaperTheme: the glass overlay palette for a
custom wallpaper id. -/
def buildCustomWallpaperTheme (cfg : Config) (id : String) : Theme :=
  buildThemeFromTemplate cfg
    { id := id
      backgroundColor := "oklch(0% 0 0 / 0.95)"
      cardColor := "oklch(0% 0 0 / 0.95)"
      borderColor := "oklch(0% 0 0 / 0.95)"
      mainColor := "oklch(100% 0 0)"
      secondaryColor := "oklch(85% 0 0)" }

/-- Modelled from the spec: a custom wallpaper record held by the
custom-wallpaper store (id, name, image reference). -/
structure CustomWallpaper where
  id : String
  name : String
  thumbnailDataUrl : String
  deriving DecidableEq

/-- Modelled from the spec: an entry of the wallpaper registry of
wallpapers.ts (which is not under src/): id, name, and image URLs. -/
structure WallpaperEntry where
  id : String
  name : String
  url : String
  urlWebp : String
  deriving DecidableEq

/-- Modelled from the spec: registerCustomWallpaper of wallpapers.ts
(replace the entry with the same id, or add it). -/
def registerCustomWallpaper (registry : List WallpaperEntry) (w : WallpaperEntry) :
    List WallpaperEntry :=
  if registry.any (fun e => e.id == w.id) then
    registry.map (fun e => if e.id == w.id then w else e)
  else registry ++ [w]

/-! ## Theme system mutable state

The source module keeps a lazily built cache _themeMap (a nullable
reference to a mutable Map object), a _customThemesLoaded flag, the
wallpaper registry, and reads two external zustand stores.  The closures
registered by ensureCustomThemesLoaded capture the Map object that was
current at load time, so the heap of Map objects is modelled explicitly:
object identity is an index into the heap list, _themeMap is an optional
index, and the captured object is remembered in capturedRef. -/

/-- The whole mutable state of the theme module together with the
module constants and the two store contents. -/
structure Sys where
  cfg : Config
  heap : List (List (String × Theme))
  cacheRef : Option Nat
  capturedRef : Option Nat
  loaded : Bool
  registry : List WallpaperEntry
  customThemes : List ThemeTemplate
  customWallpapers : List CustomWallpaper
  objectUrls : List (String × String)

/-- Contents of the heap object at a reference. -/
def heapGet (s : Sys) (r : Nat) : List (String × Theme) := s.heap.getD r []

/-- Overwrite the heap object at a reference. -/
def heapSet (s : Sys) (r : Nat) (m : List (String × Theme)) : Sys :=
  { s with heap := s.heap.set r m }

/-- Source getThemeMap: return the cached map, or build a fresh Map
from themeSets (built-in themes) and cache it. -/
def getThemeMapS (s : Sys) : Nat × Sys :=
  match s.cacheRef with
  | some r => (r, s)
  | none =>
      let r := s.heap.length
      (r, { s with heap := s.heap ++ [buildBuiltinMap s.cfg], cacheRef := some r })

/-- One iteration of the registration loop of syncCustomWallpapers:
register the wallpaper in the registry (object URL with thumbnail
fallback) and set its glass theme into the map object at r. -/
def syncRegisterStep (r : Nat) (s : Sys) (wp : CustomWallpaper) : Sys :=
  let url :=
    match mapGet s.objectUrls wp.id with
    | some u => if u == "" then wp.thumbnailDataUrl else u
    | none => wp.thumbnailDataUrl
  let entry : WallpaperEntry := { id := wp.id, name := wp.name, url := url, urlWebp := "" }
  let s2 := { s with registry := registerCustomWallpaper s.registry entry }
  heapSet s2 r (mapSet (heapGet s2 r) wp.id (buildCustomWallpaperTheme s2.cfg wp.id))

/-- Source syncCustomWallpapers: fetch the map, delete stale custom-
entries (and unregister their wallpapers), then register every current
custom wallpaper. -/
def syncCustomWallpapersS (s0 : Sys) : Sys :=
  let p := getThemeMapS s0
  let r := p.1
  let s1 := p.2
  let currentCustomIds : List String := s1.customWallpapers.map (fun w => w.id)
  let m := heapGet s1 r
  let staleKeys : List String :=
    (m.map (fun q => q.1)).filter
      (fun k => strStartsWith k "custom-" && !(currentCustomIds.contains k))
  let s2 := heapSet s1 r (m.filter (fun q => !(staleKeys.contains q.1)))
  let s3 := { s2 with registry := s2.registry.filter (fun e => !(staleKeys.contains e.id)) }
  s3.customWallpapers.foldl (syncRegisterStep r) s3

/-- Source ensureCustomThemesLoaded: on first call, set the loaded flag,
capture the current map object, write the custom color themes into it,
and sync the custom wallpapers.  The two subscriptions it installs are
modelled by the loaded flag plus the callbacks below. -/
def ensureCustomThemesLoadedS (s0 : Sys) : Sys :=
  if s0.loaded then s0 else
  let s1 := { s0 with loaded := true }
  let p := getThemeMapS s1
  let r := p.1
  let s2 := { p.2 with capturedRef := some r }
  let s3 := heapSet s2 r
    (s2.customThemes.foldl
      (fun (m : List (String × Theme)) (t : ThemeTemplate) =>
        mapSet m t.id (buildThemeFromTemplate s2.cfg t)) (heapGet s2 r))
  syncCustomWallpapersS s3

/-- The custom-theme store subscription callback: write the current
templates into the captured map object, then null the cache. -/
def onCustomThemesChanged (s0 : Sys) : Sys :=
  let s1 :=
    match s0.capturedRef with
    | some r =>
        heapSet s0 r
          (s0.customThemes.foldl
            (fun (m : List (String × Theme)) (t : ThemeTemplate) =>
              mapSet m t.id (buildThemeFromTemplate s0.cfg t)) (heapGet s0 r))
    | none => s0
  { s1 with cacheRef := none }

/-- The custom-wallpaper store subscription callback: sync, then null
the cache. -/
def onCustomWallpapersChanged (s : Sys) : Sys :=
  { syncCustomWallpapersS s with cacheRef := none }

/-- Replace the custom-theme store contents; the subscription fires
synchronously when it has been installed (loaded flag). -/
def setCustomThemes (s0 : Sys) (themes : List ThemeTemplate) : Sys :=
  let s1 := { s0 with customThemes := themes }
  if s1.loaded then onCustomThemesChanged s1 else s1

/-- Remove a custom theme from its source store. -/
def removeCustomTheme (s : Sys) (id : String) : Sys :=
  setCustomThemes s (s.customThemes.filter (fun t => t.id != id))

/-- Replace the custom-wallpaper store contents; the subscription fires
synchronously when it has been installed (loaded flag). -/
def setCustomWallpapers (s0 : Sys) (wps : List CustomWallpaper) : Sys :=
  let s1 := { s0 with customWallpapers := wps }
  if s1.loaded then onCustomWallpapersChanged s1 else s1

/-- Remove a custom wallpaper from its source store. -/
def removeCustomWallpaper (s : Sys) (id : String) : Sys :=
  setCustomWallpapers s (s.customWallpapers.filter (fun w => w.id != id))

/-- Source getTheme: ensure custom themes are loaded, then look the
alias-resolved id up in the theme map. -/
def getThemeS (s0 : Sys) (themeId : String) : Option Theme × Sys :=
  let s1 := ensureCustomThemesLoadedS s0
  let p := getThemeMapS s1
  (mapGet (heapGet p.2 p.1) (resolveThemeId themeId), p.2)

/-! ## Theme application as an effect trace -/

/-- One observable write of applyTheme: the console error, the glass
mode preference, a CSS custom property on the root, the data-theme
attribute, or a body background property. -/
inductive Effect where
  | logError (msg : String)
  | setGlassMode (b : Bool)
  | setCssVar (name : String) (value : String)
  | setDataTheme (id : String)
  | setBodyStyle (prop : String) (value : String)
  deriving DecidableEq

/-- The CSS variable writes of applyTheme for an effective theme; the
secondary pair is only written when secondaryColor is truthy. -/
def cssVarEffects (t : EffectiveTheme) : List Effect :=
  [Effect.setCssVar "--background-color" t.backgroundColor,
   Effect.setCssVar "--card-color" t.cardColor,
   Effect.setCssVar "--border-color" t.borderColor,
   Effect.setCssVar "--main-color" t.mainColor,
   Effect.setCssVar "--main-color-accent" t.mainColorAccent] ++
  (if t.secondaryColor == "" then [] else
   [Effect.setCssVar "--secondary-color" t.secondaryColor,
    Effect.setCssVar "--secondary-color-accent" t.secondaryColorAccent])

/-- The CSS background-image value applyTheme computes for a wallpaper
registry entry (image-set with WebP fallback when present). -/
def wallpaperBackgroundImage (w : WallpaperEntry) : String :=
  if w.urlWebp == "" then "url(" ++ w.url ++ ")"
  else "image-set(url(" ++ w.url ++ ") type(image/avif), url(" ++ w.urlWebp ++ ") type(image/webp))"

/-- The body background writes of applyTheme: set all five properties
when the resolved theme declares a wallpaper that the registry resolves,
clear all five when it declares none, and do nothing when the declared
wallpaper is absent from the registry. -/
def wallpaperEffects (s : Sys) (resolvedId : String) : List Effect :=
  match getThemeDefaultWallpaperId s.cfg resolvedId with
  | some wid =>
      match s.registry.find? (fun e => e.id == wid) with
      | some w =>
          [Effect.setBodyStyle "backgroundImage" (wallpaperBackgroundImage w),
           Effect.setBodyStyle "backgroundSize" "cover",
           Effect.setBodyStyle "backgroundPosition" "center",
           Effect.setBodyStyle "backgroundRepeat" "no-repeat",
           Effect.setBodyStyle "backgroundAttachment" "fixed"]
      | none => []
  | none =>
      [Effect.setBodyStyle "backgroundImage" "",
       Effect.setBodyStyle "backgroundSize" "",
       Effect.setBodyStyle "backgroundPosition" "",
       Effect.setBodyStyle "backgroundRepeat" "",
       Effect.setBodyStyle "backgroundAttachment" ""]

/-- Source applyTheme: ensure loading, resolve the id, look it up; on
failure log and stop; on success set glass mode, write the premium or
theme-own presentation variables, set data-theme, and set or clear the
body wallpaper. -/
def applyThemeS (s0 : Sys) (themeId : String) : Sys × List Effect :=
  let s1 := ensureCustomThemesLoadedS s0
  let resolvedThemeId := resolveThemeId themeId
  let p := getThemeMapS s1
  let s := p.2
  match mapGet (heapGet s p.1) resolvedThemeId with
  | none => (s, [Effect.logError ("Theme " ++ themeId ++ " not found")])
  | some theme =>
      let isPremium := isPremiumThemeId s.cfg resolvedThemeId
      let effectiveTheme : EffectiveTheme :=
        if isPremium then getPremiumThemeVariables s.cfg
        else
          { backgroundColor := theme.backgroundColor
            cardColor := getModifiedCardColor s.cfg theme.id theme.cardColor
            borderColor := getModifiedBorderColor s.cfg theme.id theme.borderColor
            mainColor := theme.mainColor
            mainColorAccent := theme.mainColorAccent
            secondaryColor := theme.secondaryColor
            secondaryColorAccent := theme.secondaryColorAccent }
      (s, Effect.setGlassMode (isPremiumThemeId s.cfg resolvedThemeId)
            :: (cssVarEffects effectiveTheme ++ [Effect.setDataTheme resolvedThemeId]
                ++ wallpaperEffects s resolvedThemeId))

/-- The visual state applyTheme acts on: the seven CSS presentation
variables, the data-theme attribute, the five body background
properties, and the glass-mode preference. -/
structure VisualState where
  cssBackgroundColor : String
  cssCardColor : String
  cssBorderColor : String
  cssMainColor : String
  cssMainColorAccent : String
  cssSecondaryColor : String
  cssSecondaryColorAccent : String
  dataTheme : String
  bodyBackgroundImage : String
  bodyBackgroundSize : String
  bodyBackgroundPosition : String
  bodyBackgroundRepeat : String
  bodyBackgroundAttachment : String
  glassMode : Bool
  deriving DecidableEq

/-- Apply a single effect to the visual state (a log writes nothing). -/
def runEffect (v : VisualState) : Effect → VisualState
  | Effect.logError _ => v
  | Effect.setGlassMode b => { v with glassMode := b }
  | Effect.setCssVar n value =>
      if n == "--background-color" then { v with cssBackgroundColor := value }
      else if n == "--card-color" then { v with cssCardColor := value }
      else if n == "--border-color" then { v with cssBorderColor := value }
      else if n == "--main-color" then { v with cssMainColor := value }
      else if n == "--main-color-accent" then { v with cssMainColorAccent := value }
      else if n == "--secondary-color" then { v with cssSecondaryColor := value }
      else if n == "--secondary-color-accent" then { v with cssSecondaryColorAccent := value }
      else v
  | Effect.setDataTheme id => { v with dataTheme := id }
  | Effect.setBodyStyle prop value =>
      if prop == "backgroundImage" then { v with bodyBackgroundImage := value }
      else if prop == "backgroundSize" then { v with bodyBackgroundSize := value }
      else if prop == "backgroundPosition" then { v with bodyBackgroundPosition := value }
      else if prop == "backgroundRepeat" then { v with bodyBackgroundRepeat := value }
      else if prop == "backgroundAttachment" then { v with bodyBackgroundAttachment := value }
      else v

/-- Apply an effect trace left to right. -/
def runEffects (v : VisualState) (l : List Effect) : VisualState := l.foldl runEffect v

/-- Projection of the visual state onto the seven CSS presentation
variables. -/
def cssVarsOf (v : VisualState) : EffectiveTheme :=
  { backgroundColor := v.cssBackgroundColor
    cardColor := v.cssCardColor
    borderColor := v.cssBorderColor
    mainColor := v.cssMainColor
    mainColorAccent := v.cssMainColorAccent
    secondaryColor := v.cssSecondaryColor
    secondaryColorAccent := v.cssSecondaryColorAccent }

/-- The five body background properties. -/
structure BodyState where
  backgroundImage : String
  backgroundSize : String
  backgroundPosition : String
  backgroundRepeat : String
  backgroundAttachment : String
  deriving DecidableEq

/-- Projection of the visual state onto the body background properties. -/
def bodyOf (v : VisualState) : BodyState :=
  { backgroundImage := v.bodyBackgroundImage
    backgroundSize := v.bodyBackgroundSize
    backgroundPosition := v.bodyBackgroundPosition
    backgroundRepeat := v.bodyBackgroundRepeat
    backgroundAttachment := v.bodyBackgroundAttachment }

/-- Effect classifier: CSS variable write. -/
def Effect.isCss : Effect → Bool
  | Effect.setCssVar _ _ => true
  | _ => false

/-- Effect classifier: body background write. -/
def Effect.isBody : Effect → Bool
  | Effect.setBodyStyle _ _ => true
  | _ => false

/-- Effect classifier: glass mode write. -/
def Effect.isGlass : Effect → Bool
  | Effect.setGlassMode _ => true
  | _ => false

/-! ## Streak calendar grid (src/unnamed/part_004) -/

/-- Source isFutureDate: the date string is strictly after today in the
JavaScript string order (today is a parameter standing for
formatDate(new Date()), which is not under src/). -/
def isFutureDate (today dateStr : String) : Bool := strLt today dateStr

/-- Modelled from the spec: hasVisit of streakCalculations.ts is not
under src/; a date is visited when present in the visits list. -/
def hasVisit (visits : List String) (dateStr : String) : Bool := visits.contains dateStr

/-- The three mutually exclusive visual styles a DayCell can take. -/
inductive CellStyle where
  | future
  | visited
  | notVisited
  deriving DecidableEq

/-- Source DayCell class selection: future style wins over visited. -/
def dayCellStyle (isVisited isFuture : Bool) : CellStyle :=
  if isFuture then CellStyle.future
  else if isVisited then CellStyle.visited
  else CellStyle.notVisited

/-- The constant EMPTY_WEEK of the source: seven empty slots. -/
def emptyWeek : List (Option String) := List.replicate 7 none

/-- Source week-bucketing loop of MonthGrid and YearGrid: place each
day at its Monday-based row, push the week after each Sunday, and push
a trailing partial week when it contains a day. -/
def buildWeeksGo (dow : String → Nat) : List String → List (Option String) →
    List (List (Option String))
  | [], cur => if cur.any (fun o => o.isSome) then [cur] else []
  | d :: rest, cur =>
      let cur2 := cur.set (dow d) (some d)
      if dow d == 6 then cur2 :: buildWeeksGo dow rest emptyWeek
      else buildWeeksGo dow rest cur2

/-- The full week-column list for a period day list, starting from the
empty week (dow is a parameter standing for getDayOfWeek of
streakCalculations.ts, which is not under src/; 0 is Monday, 6 Sunday). -/
def buildWeeks (dow : String → Nat) (days : List String) : List (List (Option String)) :=
  buildWeeksGo dow days emptyWeek

/-- The week columns MonthGrid renders for the days of the month. -/
def monthGridWeeks (dow : String → Nat) (days : List String) : List (List (Option String)) :=
  buildWeeks dow days

/-- The week columns YearGrid renders for the days of the year. -/
def yearGridWeeks (dow : String → Nat) (days : List String) : List (List (Option String)) :=
  buildWeeks dow days

/-- The filled cells of one week column in row order, tagged with their
row index (offset by i). -/
def cellsAux (i : Nat) : List (Option String) → List (Nat × String)
  | [] => []
  | none :: w => cellsAux (i + 1) w
  | some d :: w => (i, d) :: cellsAux (i + 1) w

/-- The filled cells of one week column in row order. -/
def cellsFilled (w : List (Option String)) : List (Nat × String) := cellsAux 0 w

/-- All filled cells of a grid, column by column, each in row order. -/
def placedCells (weeks : List (List (Option String))) : List (Nat × String) :=
  weeks.flatMap cellsFilled

/-- Decidable check that consecutive days advance the day-of-week by
one modulo 7 (the property of any list of consecutive calendar days). -/
def dowChain (dow : String → Nat) : List String → Bool
  | [] => true
  | [_] => true
  | a :: b :: rest => (dow b == (dow a + 1) % 7) && dowChain dow (b :: rest)

/-- A rendered calendar cell: date, visited flag, future flag
(the props MonthGrid and YearGrid pass to DayCell). -/
structure CalendarCell where
  date : String
  visited : Bool
  isFuture : Bool
  deriving DecidableEq

/-- The DayCell instances rendered for one week column. -/
def weekCells (today : String) (visits : List String) (w : List (Option String)) :
    List CalendarCell :=
  w.filterMap (fun o => o.map (fun d =>
    { date := d, visited := hasVisit visits d, isFuture := isFutureDate today d }))

/-- All DayCell instances rendered for a grid. -/
def gridCells (today : String) (visits : List String)
    (weeks : List (List (Option String))) : List CalendarCell :=
  weeks.flatMap (weekCells today visits)

/-- The style a rendered cell gets. -/
def cellRenderStyle (c : CalendarCell) : CellStyle := dayCellStyle c.visited c.isFuture

/-! ## Streak computations

Modelled from the spec: streakCalculations.ts is not under src/ (only
its callers StreakStats.tsx and the grid component are).  Dates are
modelled as integer day numbers, which the canonical ISO date strings
are order- and successor-isomorphic to. -/

/-- Fuelled count of the run of consecutive visited days ending at d
(d, d-1, d-2, ... while each is a visit). -/
def memRunGo (visits : List Int) : Nat → Int → Nat
  | 0, _ => 0
  | fuel + 1, d => if d ∈ visits then memRunGo visits fuel (d - 1) + 1 else 0

/-- Length of the consecutive visited run ending at d; the number of
visit entries bounds every such run, so it is used as fuel. -/
def memRun (visits : List Int) (d : Int) : Nat := memRunGo visits visits.length d

/-- Modelled from the spec: calculateCurrentStreak counts consecutive
days ending today (or yesterday when today has no visit yet) with no
gap, and returns 0 when neither today nor yesterday is visited. -/
def calculateCurrentStreak (today : Int) (visits : List Int) : Nat :=
  if today ∈ visits then memRun visits today
  else if (today - 1) ∈ visits then memRun visits (today - 1)
  else 0

/-- The sorted unique visit dates the longest-streak scan walks. -/
def sortedUniqueDates (visits : List Int) : List Int :=
  visits.dedup.mergeSort (fun a b => a ≤ b)

/-- Modelled from the spec: calculateLongestStreak scans the sorted
unique dates and finds the longest run of consecutive calendar days. -/
def calculateLongestStreak (visits : List Int) : Nat :=
  ((sortedUniqueDates visits).map (fun d => memRun visits d)).foldr max 0

/-! ## Concrete instances used by witnesses and counterexamples -/

/-- A color generator instance with visibly distinct outputs. -/
def witnessGen : ColorGen :=
  { card := fun s b => "card(" ++ s ++ (if b then ",L" else ",D") ++ ")"
    border := fun s b => "border(" ++ s ++ (if b then ",L" else ",D") ++ ")"
    accent := fun s => "accent(" ++ s ++ ")" }

/-- The empty configuration: no built-in theme groups. -/
def emptyCfg : Config := { gen := witnessGen, baseThemeSets := [] }

/-- A fresh module state over the empty configuration. -/
def emptySys : Sys :=
  { cfg := emptyCfg, heap := [], cacheRef := none, capturedRef := none, loaded := false
    registry := [], customThemes := [], customWallpapers := [], objectUrls := [] }

/-- An arbitrary prior visual state with nonempty values everywhere. -/
def priorVisual : VisualState :=
  { cssBackgroundColor := "pbg", cssCardColor := "pcard", cssBorderColor := "pborder"
    cssMainColor := "pmain", cssMainColorAccent := "pmainacc"
    cssSecondaryColor := "psec", cssSecondaryColorAccent := "psecacc"
    dataTheme := "prior-theme", bodyBackgroundImage := "url(prior)"
    bodyBackgroundSize := "cover", bodyBackgroundPosition := "center"
    bodyBackgroundRepeat := "no-repeat", bodyBackgroundAttachment := "fixed"
    glassMode := false }

/-- A non-premium base theme without a wallpaper. -/
def alphaBase : BaseTheme :=
  { id := "alpha", backgroundColor := "abg", mainColor := "amain"
    secondaryColor := "asec", wallpaperId := none }

/-- A premium base theme declaring wallpaper w1. -/
def glassyBase : BaseTheme :=
  { id := "glassy", backgroundColor := "gbg", mainColor := "gmain"
    secondaryColor := "gsec", wallpaperId := some "w1" }

/-- A configuration with one plain group and one premium group. -/
def witnessCfg : Config :=
  { gen := witnessGen
    baseThemeSets :=
      [{ name := "Classic", isLight := true, themes := [alphaBase] },
       { name := "Premium Glass", isLight := false, themes := [glassyBase] }] }

/-- A fresh module state over witnessCfg, with wallpaper w1 registered. -/
def witnessSys : Sys :=
  { cfg := witnessCfg, heap := [], cacheRef := none, capturedRef := none, loaded := false
    registry := [{ id := "w1", name := "Wall", url := "u1", urlWebp := "" }]
    customThemes := [], customWallpapers := [], objectUrls := [] }

/-- The derived theme of alphaBase under witnessCfg. -/
def alphaTheme : Theme := buildTheme witnessCfg alphaBase true

/-- The derived theme of glassyBase under witnessCfg. -/
def glassyTheme : Theme := buildTheme witnessCfg glassyBase false

/-- A base theme declaring a wallpaper id that no registry entry has. -/
def dangleBase : BaseTheme :=
  { id := "dangle", backgroundColor := "dbg", mainColor := "dmain"
    secondaryColor := "dsec", wallpaperId := some "w-missing" }

/-- Configuration whose only theme declares an unregistered wallpaper. -/
def dangleCfg : Config :=
  { gen := witnessGen
    baseThemeSets := [{ name := "Classic", isLight := false, themes := [dangleBase] }] }

/-- A fresh module state over dangleCfg with an empty registry. -/
def dangleSys : Sys :=
  { cfg := dangleCfg, heap := [], cacheRef := none, capturedRef := none, loaded := false
    registry := [], customThemes := [], customWallpapers := [], objectUrls := [] }

/-- Modelled from the spec: themeDefinitions.ts is not under src/, so
the concrete premium group is unknown.  The legacy alias maps the
deprecated glass id neon-city-glass to neon-city, and the glossary ties
glass styling to the premium set, so the alias target neon-city is
modelled as a member of the premium group. -/
def premiumModelCfg : Config :=
  { gen := witnessGen
    baseThemeSets :=
      [{ name := "Premium Glass", isLight := false
         themes := [{ id := "neon-city", backgroundColor := "nbg", mainColor := "nmain"
                      secondaryColor := "nsec", wallpaperId := none }] }] }

/-- A loaded module state holding one custom theme and one custom
wallpaper, as left behind by ensureCustomThemesLoaded. -/
def loadedSys : Sys :=
  ensureCustomThemesLoadedS
    { cfg := emptyCfg, heap := [], cacheRef := none, capturedRef := none, loaded := false
      registry := []
      customThemes :=
        [{ id := "my-red", backgroundColor := "rbg", cardColor := "rcard"
           borderColor := "rborder", mainColor := "rmain", secondaryColor := "rsec" }]
      customWallpapers := [{ id := "custom-w1", name := "CW", thumbnailDataUrl := "thumb" }]
      objectUrls := [] }

/-- Ten consecutive days (a Monday through the next Wednesday) used by
the grid witnesses, with 2024-01-01 an actual Monday. -/
def c8days : List String :=
  ["2024-01-01", "2024-01-02", "2024-01-03", "2024-01-04", "2024-01-05",
   "2024-01-06", "2024-01-07", "2024-01-08", "2024-01-09", "2024-01-10"]

/-- The Monday-based day-of-week table for c8days. -/
def c8dow (s : String) : Nat :=
  (mapGet
    [("2024-01-01", 0), ("2024-01-02", 1), ("2024-01-03", 2), ("2024-01-04", 3),
     ("2024-01-05", 4), ("2024-01-06", 5), ("2024-01-07", 6), ("2024-01-08", 0),
     ("2024-01-09", 1), ("2024-01-10", 2)] s).getD 0


/-! ## General helper lemmas -/

/-- lexLt agrees with the lexicographic strict order on character lists. -/
theorem lexLt_iff (a b : List Char) : lexLt a b = true ↔ a < b := by
  induction a generalizing b with
  | nil =>
    cases b with
    | nil => simp [lexLt]
    | cons y ys => simp [lexLt]; exact List.Lex.nil
  | cons x xs ih =>
    cases b with
    | nil => simp [lexLt]
    | cons y ys =>
      constructor
      · intro h
        by_cases hab : x < y
        · exact List.Lex.rel hab
        · by_cases hba : y < x
          · simp [lexLt, hab, hba] at h
          · have hxy : x = y := le_antisymm (not_lt.1 hba) (not_lt.1 hab)
            subst hxy
            exact List.Lex.cons ((ih ys).1 (by simpa [lexLt, hab, hba] using h))
      · intro h
        cases h with
        | rel h1 => simp [lexLt, h1]
        | cons h3 => simp [lexLt, lt_irrefl]; exact (ih ys).2 h3

/-- strLt agrees with the lexicographic strict order on strings. -/
theorem strLt_iff (a b : String) : strLt a b = true ↔ a < b := by
  have h2 : a < b ↔ a.data < b.data := String.lt_iff_toList_lt
  rw [h2]
  exact lexLt_iff a.data b.data

/-- getD after set at the same in-range index. -/
theorem listGetD_set_self {α : Type} : ∀ (l : List α) (r : Nat) (v d : α), r < l.length →
    (l.set r v).getD r d = v := by
  intro l
  induction l with
  | nil => intro r v d h; simp at h
  | cons x xs ih =>
    intro r v d h
    cases r with
    | zero => rfl
    | succ n => simpa using ih n v d (by simpa using h)

/-- getD after set at a different index. -/
theorem listGetD_set_ne {α : Type} : ∀ (l : List α) (r j : Nat) (v d : α), r ≠ j →
    (l.set r v).getD j d = l.getD j d := by
  intro l
  induction l with
  | nil => intro r j v d _; simp
  | cons x xs ih =>
    intro r j v d h
    cases r with
    | zero =>
      cases j with
      | zero => exact absurd rfl h
      | succ m => rfl
    | succ n =>
      cases j with
      | zero => rfl
      | succ m => simpa using ih n m v d (by omega)

/-- getD of a singleton appended at its own index. -/
theorem listGetD_concat_self {α : Type} : ∀ (l : List α) (a d : α),
    (l ++ [a]).getD l.length d = a := by
  intro l
  induction l with
  | nil => intro a d; rfl
  | cons x xs ih => intro a d; simpa using ih a d

/-- mapGet after mapSet at a different key. -/
theorem mapGet_mapSet_ne {α : Type} : ∀ (m : List (String × α)) (k k2 : String) (v : α),
    k2 ≠ k → mapGet (mapSet m k v) k2 = mapGet m k2 := by
  intro m
  induction m with
  | nil =>
    intro k k2 v h
    simp [mapSet, mapGet, List.find?, beq_eq_false_iff_ne.2 (Ne.symm h)]
  | cons p m ih =>
    intro k k2 v h
    by_cases hk : p.1 == k
    · have hpk : p.1 = k := by simpa using hk
      simp only [mapSet, hk, if_true]
      simp [mapGet, List.find?, hpk, beq_eq_false_iff_ne, h, (beq_eq_false_iff_ne).2 (Ne.symm h)]
    · simp only [mapSet, hk, if_false, Bool.false_eq_true]
      by_cases hp2 : p.1 == k2
      · simp [mapGet, List.find?, hp2]
      · simp only [mapGet, List.find?, hp2] at *
        exact ih k k2 v h

/-- Filtering an association list cannot create a key. -/
theorem mapGet_filter_none {α : Type} : ∀ (m : List (String × α)) (q : String × α → Bool)
    (k : String), mapGet m k = none → mapGet (m.filter q) k = none := by
  intro m
  induction m with
  | nil => intro q k _; rfl
  | cons p m ih =>
    intro q k h
    by_cases hp : p.1 == k
    · simp [mapGet, List.find?, hp] at h
    · simp only [mapGet, List.find?, hp] at h
      by_cases hq : q p
      · simp only [List.filter, hq, mapGet, List.find?, hp]
        exact ih q k h
      · simp only [List.filter, hq, Bool.false_eq_true, if_false]
        exact ih q k h

/-- A fold of mapSet writes over keys different from k leaves the value
at k unchanged. -/
theorem mapGet_foldl_mapSet_ne {α β : Type} (key : β → String) (val : β → α) (k : String) :
    ∀ (l : List β) (m : List (String × α)), (∀ t ∈ l, key t ≠ k) →
    mapGet (l.foldl (fun m2 t => mapSet m2 (key t) (val t)) m) k = mapGet m k := by
  intro l
  induction l with
  | nil => intro m _; rfl
  | cons t l ih =>
    intro m h
    simp only [List.foldl_cons]
    rw [ih (mapSet m (key t) (val t)) (fun u hu => h u (List.mem_cons_of_mem t hu))]
    exact mapGet_mapSet_ne m (key t) k (val t)
      (fun he => h t (List.mem_cons_self t l) (he ▸ rfl) )

/-- getD of a replicate of none is always none. -/
theorem replicate_none_getD : ∀ (n j : Nat),
    (List.replicate n (none : Option String)).getD j none = none := by
  intro n
  induction n with
  | zero => intro j; rfl
  | succ m ih =>
    intro j
    cases j with
    | zero => rfl
    | succ i => simpa [List.replicate] using ih i

/-- Every slot of the empty week is none. -/
theorem emptyWeek_getD (j : Nat) : emptyWeek.getD j none = none :=
  replicate_none_getD 7 j

/-- A week whose slots are all none contributes no cells. -/
theorem cellsAux_getD_none : ∀ (w : List (Option String)),
    (∀ j, w.getD j none = none) → ∀ i, cellsAux i w = [] := by
  intro w
  induction w with
  | nil => intro _ i; rfl
  | cons x xs ih =>
    intro h i
    have hx : x = none := h 0
    subst hx
    exact ih (fun j => h (j + 1)) (i + 1)

/-- A week with no isSome slot contributes no cells. -/
theorem cellsAux_any_false (w : List (Option String))
    (h : w.any (fun o => o.isSome) = false) (i : Nat) : cellsAux i w = [] := by
  have h2 : ∀ x ∈ w, x = none := by
    intro x hx
    have := (List.any_eq_false.1 h) x hx
    cases x with
    | none => rfl
    | some d => simp at this
  have h3 : ∀ j, w.getD j none = none := by
    intro j
    by_cases hj : j < w.length
    · have : w.getD j none = w[j] := List.getD_eq_getElem w none hj
      rw [this]
      exact h2 _ (List.getElem_mem hj)
    · exact List.getD_eq_default w none (by omega)
  exact cellsAux_getD_none w h3 i

/-- Setting a day into a week whose slots at and above the target row
are empty appends exactly one cell at that row. -/
theorem cellsAux_set : ∀ (w : List (Option String)) (r : Nat) (d : String) (i : Nat),
    r < w.length → (∀ j, r ≤ j → w.getD j none = none) →
    cellsAux i (w.set r (some d)) = cellsAux i w ++ [(i + r, d)] := by
  intro w
  induction w with
  | nil => intro r d i h _; simp at h
  | cons x xs ih =>
    intro r d i hlen hnone
    cases r with
    | zero =>
      have hx : x = none := hnone 0 (Nat.le_refl 0)
      subst hx
      have hxs : ∀ j, xs.getD j none = none := fun j => hnone (j + 1) (Nat.zero_le _)
      simp only [List.set, cellsAux, Nat.add_zero]
      rw [cellsAux_getD_none xs hxs (i + 1)]
      simp
    | succ n =>
      have hlen2 : n < xs.length := by simpa using hlen
      have hnone2 : ∀ j, n ≤ j → xs.getD j none = none := by
        intro j hj
        exact hnone (j + 1) (by omega)
      cases x with
      | none =>
        simp only [List.set, cellsAux]
        rw [ih n d (i + 1) hlen2 hnone2]
        have : i + 1 + n = i + (n + 1) := by omega
        rw [this]
      | some a =>
        simp only [List.set, cellsAux]
        rw [ih n d (i + 1) hlen2 hnone2]
        have : i + 1 + n = i + (n + 1) := by omega
        rw [this]
        simp

/-- An element of a Nat list is at most the fold of max over it. -/
theorem le_foldr_max : ∀ (l : List Nat) (a : Nat), a ∈ l → a ≤ l.foldr max 0 := by
  intro l
  induction l with
  | nil => intro a h; cases h
  | cons x xs ih =>
    intro a h
    cases h with
    | head => exact le_max_left _ _
    | tail _ h2 => exact le_trans (ih a h2) (le_max_right _ _)

/-- The tail of a day-of-week chain is a chain. -/
theorem dowChain_tail (dow : String → Nat) (d : String) (rest : List String)
    (h : dowChain dow (d :: rest) = true) : dowChain dow rest = true := by
  cases rest with
  | nil => rfl
  | cons b l =>
    simp only [dowChain, Bool.and_eq_true] at h
    exact h.2

/-- The head step of a day-of-week chain. -/
theorem dowChain_head (dow : String → Nat) (d b : String) (l : List String)
    (h : dowChain dow (d :: b :: l) = true) : dow b = (dow d + 1) % 7 := by
  simp only [dowChain, Bool.and_eq_true] at h
  simpa using h.1

/-- Unrolling of the week-bucketing fold: with a consecutive day list
whose rows stay within the week, the cells placed by the fold are the
current partial column followed by one cell per day at its own row. -/
theorem buildWeeksGo_placed (dow : String → Nat) :
    ∀ (days : List String) (cur : List (Option String)),
    cur.length = 7 →
    (∀ d ∈ days, dow d < 7) →
    dowChain dow days = true →
    (∀ d, days.head? = some d → ∀ j, dow d ≤ j → cur.getD j none = none) →
    placedCells (buildWeeksGo dow days cur) =
      cellsFilled cur ++ days.map (fun d => (dow d, d)) := by
  intro days
  induction days with
  | nil =>
    intro cur hlen _ _ _
    simp only [buildWeeksGo]
    by_cases hany : cur.any (fun o => o.isSome) = true
    · simp only [hany, if_true, placedCells, List.flatMap_cons, List.flatMap_nil,
        List.append_nil, List.map_nil]
    · have hany2 : cur.any (fun o => o.isSome) = false := by
        cases h2 : cur.any (fun o => o.isSome) with
        | true => exact absurd h2 hany
        | false => rfl
      simp only [hany2, Bool.false_eq_true, if_false, placedCells, List.flatMap_nil,
        List.map_nil, List.append_nil, cellsFilled]
      rw [cellsAux_any_false cur hany2 0]
  | cons d rest ih =>
    intro cur hlen hdow hchain hhead
    have hr7 : dow d < 7 := hdow d (List.mem_cons_self d rest)
    have hinv : ∀ j, dow d ≤ j → cur.getD j none = none := hhead d rfl
    have hset : cellsFilled (cur.set (dow d) (some d)) =
        cellsFilled cur ++ [(dow d, d)] := by
      have := cellsAux_set cur (dow d) d 0 (by omega) hinv
      simpa [cellsFilled] using this
    simp only [buildWeeksGo]
    by_cases h6 : (dow d == 6) = true
    · have hd6 : dow d = 6 := by simpa using h6
      simp only [h6, if_true]
      have hrec := ih emptyWeek (by simp [emptyWeek]) (fun u hu => hdow u (List.mem_cons_of_mem d hu))
        (dowChain_tail dow d rest hchain)
        (fun u _ j _ => emptyWeek_getD j)
      simp only [placedCells, List.flatMap_cons] at *
      rw [hrec, hset]
      have hempty : cellsFilled emptyWeek = [] :=
        cellsAux_getD_none emptyWeek emptyWeek_getD 0
      rw [hempty]
      simp [hd6]
    · simp only [h6, Bool.false_eq_true, if_false]
      have hne6 : dow d ≠ 6 := fun he => h6 (by simp [he])
      have hlen2 : (cur.set (dow d) (some d)).length = 7 := by
        simpa using hlen
      have hhead2 : ∀ u, rest.head? = some u → ∀ j, dow u ≤ j →
          (cur.set (dow d) (some d)).getD j none = none := by
        intro u hu j hj
        cases rest with
        | nil => simp at hu
        | cons b l =>
          have hb : u = b := by
            have hb2 : b = u := by simpa using hu
            exact hb2.symm
          subst hb
          have hstep : dow u = (dow d + 1) % 7 := dowChain_head dow d u l hchain
          have hlt : dow d + 1 < 7 := by omega
          have hmod : (dow d + 1) % 7 = dow d + 1 := Nat.mod_eq_of_lt hlt
          have hju : dow d + 1 ≤ j := by
            rw [hstep, hmod] at hj
            exact hj
          rw [listGetD_set_ne cur (dow d) j (some d) none (by omega)]
          exact hinv j (by omega)
      have hrec := ih (cur.set (dow d) (some d)) hlen2
        (fun u hu => hdow u (List.mem_cons_of_mem d hu))
        (dowChain_tail dow d rest hchain) hhead2
      rw [hrec, hset]
      simp

/-- Every pushed week except possibly the trailing partial one ends
with a day in the Sunday row. -/
theorem buildWeeksGo_sunday (dow : String → Nat) :
    ∀ (days : List String) (cur : List (Option String)), cur.length = 7 →
    ∀ w ∈ (buildWeeksGo dow days cur).dropLast, (w.getD 6 none).isSome = true := by
  intro days
  induction days with
  | nil =>
    intro cur _ w hw
    simp only [buildWeeksGo] at hw
    by_cases hany : cur.any (fun o => o.isSome) = true
    · simp [hany] at hw
    · have hany2 : cur.any (fun o => o.isSome) = false := by
        cases h2 : cur.any (fun o => o.isSome) with
        | true => exact absurd h2 hany
        | false => rfl
      simp [hany2] at hw
  | cons d rest ih =>
    intro cur hlen w hw
    simp only [buildWeeksGo] at hw
    by_cases h6 : (dow d == 6) = true
    · have hd6 : dow d = 6 := by simpa using h6
      simp only [h6, if_true] at hw
      cases hrec : buildWeeksGo dow rest emptyWeek with
      | nil => simp [hrec] at hw
      | cons y l =>
        rw [hrec, List.dropLast_cons₂] at hw
        cases hw with
        | head =>
          rw [hd6]
          rw [listGetD_set_self cur 6 (some d) none (by omega)]
          rfl
        | tail _ hw2 =>
          have := ih emptyWeek (by simp [emptyWeek]) w
          rw [hrec] at this
          exact this hw2
    · simp only [h6, Bool.false_eq_true, if_false] at hw
      exact ih (cur.set (dow d) (some d)) (by simpa using hlen) w hw

/-! ## Claim theorems: streak and grid -/

/-- Claim C5: color derivation is deterministic — two invocations of
buildTheme on the same base theme and isLight flag yield identical
derived cardColor, borderColor, mainColorAccent and
secondaryColorAccent (and identical themes altogether). -/
theorem buildTheme_deterministic (cfg : Config) (b1 b2 : BaseTheme) (l1 l2 : Bool)
    (hb : b1 = b2) (hl : l1 = l2) :
    buildTheme cfg b1 l1 = buildTheme cfg b2 l2 ∧
    (buildTheme cfg b1 l1).cardColor = (buildTheme cfg b2 l2).cardColor ∧
    (buildTheme cfg b1 l1).borderColor = (buildTheme cfg b2 l2).borderColor ∧
    (buildTheme cfg b1 l1).mainColorAccent = (buildTheme cfg b2 l2).mainColorAccent ∧
    (buildTheme cfg b1 l1).secondaryColorAccent = (buildTheme cfg b2 l2).secondaryColorAccent := by
  subst hb
  subst hl
  exact ⟨rfl, rfl, rfl, rfl, rfl⟩

/-- Witness for C5 at a concrete base theme and flag. -/
theorem buildTheme_deterministic_witness :
    alphaBase = alphaBase ∧ true = true ∧
    buildTheme witnessCfg alphaBase true = buildTheme witnessCfg alphaBase true :=
  ⟨rfl, rfl, (buildTheme_deterministic witnessCfg alphaBase alphaBase true true rfl rfl).1⟩

/-- Claim C9: for every visit list and every current day, the longest
streak is at least the current streak. -/
theorem longestStreak_ge_currentStreak (today : Int) (visits : List Int) :
    calculateCurrentStreak today visits ≤ calculateLongestStreak visits := by
  unfold calculateCurrentStreak calculateLongestStreak
  by_cases h1 : today ∈ visits
  · simp only [h1, if_true]
    apply le_foldr_max
    apply List.mem_map_of_mem
    simp [sortedUniqueDates, List.mem_mergeSort, List.mem_dedup, h1]
  · simp only [h1, if_false]
    by_cases h2 : (today - 1) ∈ visits
    · simp only [h2, if_true]
      apply le_foldr_max
      apply List.mem_map_of_mem
      simp [sortedUniqueDates, List.mem_mergeSort, List.mem_dedup, h2]
    · rw [if_neg h2]
      exact Nat.zero_le _

/-- Claim C7: every rendered grid cell is flagged future exactly when
its date is lexicographically strictly after today, and a future cell
always gets the future style, visited or not. -/
theorem gridCell_future (today : String) (visits : List String) (dow : String → Nat)
    (days : List String) (c : CalendarCell)
    (hc : c ∈ gridCells today visits (buildWeeks dow days)) :
    (c.isFuture = true ↔ today < c.date) ∧
    (c.isFuture = true → cellRenderStyle c = CellStyle.future) := by
  obtain ⟨w, _, hcw⟩ := List.mem_flatMap.1 hc
  simp only [weekCells, List.mem_filterMap] at hcw
  obtain ⟨o, _, hoc⟩ := hcw
  cases o with
  | none => simp at hoc
  | some d =>
    have hoc2 : (⟨d, hasVisit visits d, isFutureDate today d⟩ : CalendarCell) = c := by
      simpa using hoc
    subst hoc2
    constructor
    · simpa [isFutureDate] using strLt_iff today d
    · intro hf
      have hf2 : isFutureDate today d = true := hf
      simp [cellRenderStyle, dayCellStyle, hf2]

/-- Witness for C7: a visited future cell in a concrete grid renders
with the future style. -/
theorem gridCell_future_witness :
    ({ date := "2024-01-07", visited := true, isFuture := true } : CalendarCell) ∈
      gridCells "2024-01-05" ["2024-01-07"] (buildWeeks c8dow c8days) ∧
    (("2024-01-05" : String) < "2024-01-07" ∧
      cellRenderStyle { date := "2024-01-07", visited := true, isFuture := true } =
        CellStyle.future) := by
  have hmem : ({ date := "2024-01-07", visited := true, isFuture := true } : CalendarCell) ∈
      gridCells "2024-01-05" ["2024-01-07"] (buildWeeks c8dow c8days) := by decide
  have h := gridCell_future "2024-01-05" ["2024-01-07"] c8dow c8days
    { date := "2024-01-07", visited := true, isFuture := true } hmem
  exact ⟨hmem, h.1.1 rfl, h.2 rfl⟩

/-- Claim C8: for a consecutive Monday-based day list, the month and
year grids place the period days column by column so that, reading the
filled cells of the columns in row order, every day appears exactly
once at the row equal to its Monday-based day-of-week, and every column
except possibly the trailing partial one is closed by a Sunday cell. -/
theorem grid_week_layout (dow : String → Nat) (days : List String)
    (h7 : ∀ d ∈ days, dow d < 7) (hchain : dowChain dow days = true) :
    placedCells (monthGridWeeks dow days) = days.map (fun d => (dow d, d)) ∧
    placedCells (yearGridWeeks dow days) = days.map (fun d => (dow d, d)) ∧
    (∀ w ∈ (monthGridWeeks dow days).dropLast, (w.getD 6 none).isSome = true) ∧
    (∀ w ∈ (yearGridWeeks dow days).dropLast, (w.getD 6 none).isSome = true) := by
  have hmain := buildWeeksGo_placed dow days emptyWeek (by simp [emptyWeek]) h7 hchain
    (fun u _ j _ => emptyWeek_getD j)
  have hempty : cellsFilled emptyWeek = [] :=
    cellsAux_getD_none emptyWeek emptyWeek_getD 0
  rw [hempty] at hmain
  simp only [List.nil_append] at hmain
  have hsun := buildWeeksGo_sunday dow days emptyWeek (by simp [emptyWeek])
  exact ⟨hmain, hmain, hsun, hsun⟩

/-- Witness for C8 on ten concrete consecutive days crossing a Sunday. -/
theorem grid_week_layout_witness :
    (∀ d ∈ c8days, c8dow d < 7) ∧ dowChain c8dow c8days = true ∧
    placedCells (monthGridWeeks c8dow c8days) = c8days.map (fun d => (c8dow d, d)) := by
  have h7 : ∀ d ∈ c8days, c8dow d < 7 := by decide
  have hchain : dowChain c8dow c8days = true := by decide
  exact ⟨h7, hchain, (grid_week_layout c8dow c8days h7 hchain).1⟩

/-! ## Claim theorems: premium resolution -/

/-- Claim C6 (amended): isPremiumThemeId holds exactly when the
alias-resolved id is in the static premium set or carries the custom-
prefix; for ids that are not legacy aliases this coincides with the
claim as originally stated, on the raw id. -/
theorem isPremium_characterisation (cfg : Config) (themeId : String) :
    (isPremiumThemeId cfg themeId = true ↔
      resolveThemeId themeId ∈ premiumThemeIds cfg ∨
        strStartsWith (resolveThemeId themeId) "custom-" = true) ∧
    (mapGet legacyThemeAliases themeId = none →
      (isPremiumThemeId cfg themeId = true ↔
        themeId ∈ premiumThemeIds cfg ∨ strStartsWith themeId "custom-" = true)) := by
  have hbase : ∀ rid, ((premiumThemeIds cfg).contains rid || strStartsWith rid "custom-") = true ↔
      rid ∈ premiumThemeIds cfg ∨ strStartsWith rid "custom-" = true := by
    intro rid
    simp [List.contains, List.elem_iff]
  constructor
  · exact hbase (resolveThemeId themeId)
  · intro halias
    have hres : resolveThemeId themeId = themeId := by
      simp [resolveThemeId, halias]
    rw [show isPremiumThemeId cfg themeId =
        ((premiumThemeIds cfg).contains (resolveThemeId themeId) ||
          strStartsWith (resolveThemeId themeId) "custom-") from rfl, hres]
    exact hbase themeId

/-- Witness for C6 (amended) at a concrete non-alias id. -/
theorem isPremium_characterisation_witness :
    mapGet legacyThemeAliases "alpha" = none ∧
    (isPremiumThemeId witnessCfg "alpha" = true ↔
      "alpha" ∈ premiumThemeIds witnessCfg ∨ strStartsWith "alpha" "custom-" = true) := by
  have halias : mapGet legacyThemeAliases "alpha" = none := by decide
  exact ⟨halias, (isPremium_characterisation witnessCfg "alpha").2 halias⟩

/-- Counterexample for C6 as stated: under the modelled premium group
containing the alias target neon-city, the deprecated id
neon-city-glass is reported premium although it neither belongs to the
static premium set nor carries the custom- prefix. -/
theorem isPremium_raw_id_counterexample :
    isPremiumThemeId premiumModelCfg "neon-city-glass" = true ∧
    ¬ ("neon-city-glass" ∈ premiumThemeIds premiumModelCfg) ∧
    strStartsWith "neon-city-glass" "custom-" = false := by
  refine ⟨by decide, ?_, by decide⟩
  intro h
  simp [premiumThemeIds, premiumModelCfg] at h
  exact absurd h (by decide)

/-! ## State-machine helper lemmas -/

/-- getThemeMap on a warm cache returns it unchanged. -/
theorem getThemeMapS_some (s : Sys) (r : Nat) (h : s.cacheRef = some r) :
    getThemeMapS s = (r, s) := by
  simp [getThemeMapS, h]

/-- getThemeMap on a cold cache allocates the built-in map. -/
theorem getThemeMapS_none (s : Sys) (h : s.cacheRef = none) :
    getThemeMapS s = (s.heap.length,
      { s with heap := s.heap ++ [buildBuiltinMap s.cfg], cacheRef := some s.heap.length }) := by
  simp [getThemeMapS, h]

/-- getThemeMap leaves the configuration unchanged. -/
theorem getThemeMapS_cfg (s : Sys) : (getThemeMapS s).2.cfg = s.cfg := by
  cases h : s.cacheRef <;> simp [getThemeMapS, h]

/-- getThemeMap leaves the loaded flag unchanged. -/
theorem getThemeMapS_loaded (s : Sys) : (getThemeMapS s).2.loaded = s.loaded := by
  cases h : s.cacheRef <;> simp [getThemeMapS, h]

/-- getThemeMap leaves the custom theme store unchanged. -/
theorem getThemeMapS_customThemes (s : Sys) :
    (getThemeMapS s).2.customThemes = s.customThemes := by
  cases h : s.cacheRef <;> simp [getThemeMapS, h]

/-- getThemeMap leaves the custom wallpaper store unchanged. -/
theorem getThemeMapS_customWallpapers (s : Sys) :
    (getThemeMapS s).2.customWallpapers = s.customWallpapers := by
  cases h : s.cacheRef <;> simp [getThemeMapS, h]

/-- getThemeMap leaves the wallpaper registry unchanged. -/
theorem getThemeMapS_registry (s : Sys) : (getThemeMapS s).2.registry = s.registry := by
  cases h : s.cacheRef <;> simp [getThemeMapS, h]

/-- One registration step leaves the configuration unchanged. -/
theorem syncRegisterStep_cfg (r : Nat) (s : Sys) (wp : CustomWallpaper) :
    (syncRegisterStep r s wp).cfg = s.cfg := rfl

/-- One registration step leaves the loaded flag unchanged. -/
theorem syncRegisterStep_loaded (r : Nat) (s : Sys) (wp : CustomWallpaper) :
    (syncRegisterStep r s wp).loaded = s.loaded := rfl

/-- One registration step leaves the cache reference unchanged. -/
theorem syncRegisterStep_cacheRef (r : Nat) (s : Sys) (wp : CustomWallpaper) :
    (syncRegisterStep r s wp).cacheRef = s.cacheRef := rfl

/-- One registration step leaves the captured reference unchanged. -/
theorem syncRegisterStep_capturedRef (r : Nat) (s : Sys) (wp : CustomWallpaper) :
    (syncRegisterStep r s wp).capturedRef = s.capturedRef := rfl

/-- One registration step leaves the custom theme store unchanged. -/
theorem syncRegisterStep_customThemes (r : Nat) (s : Sys) (wp : CustomWallpaper) :
    (syncRegisterStep r s wp).customThemes = s.customThemes := rfl

/-- One registration step leaves the custom wallpaper store unchanged. -/
theorem syncRegisterStep_customWallpapers (r : Nat) (s : Sys) (wp : CustomWallpaper) :
    (syncRegisterStep r s wp).customWallpapers = s.customWallpapers := rfl

/-- One registration step keeps the heap size. -/
theorem syncRegisterStep_heapLength (r : Nat) (s : Sys) (wp : CustomWallpaper) :
    (syncRegisterStep r s wp).heap.length = s.heap.length := by
  simp [syncRegisterStep, heapSet]

/-- The registration fold leaves the configuration unchanged. -/
theorem foldl_syncRegisterStep_cfg : ∀ (l : List CustomWallpaper) (s : Sys) (r : Nat),
    (l.foldl (syncRegisterStep r) s).cfg = s.cfg := by
  intro l
  induction l with
  | nil => intro s r; rfl
  | cons wp l ih =>
    intro s r
    simp only [List.foldl_cons]
    rw [ih (syncRegisterStep r s wp) r, syncRegisterStep_cfg]

/-- The registration fold leaves the loaded flag unchanged. -/
theorem foldl_syncRegisterStep_loaded : ∀ (l : List CustomWallpaper) (s : Sys) (r : Nat),
    (l.foldl (syncRegisterStep r) s).loaded = s.loaded := by
  intro l
  induction l with
  | nil => intro s r; rfl
  | cons wp l ih =>
    intro s r
    simp only [List.foldl_cons]
    rw [ih (syncRegisterStep r s wp) r, syncRegisterStep_loaded]

/-- The registration fold leaves the cache reference unchanged. -/
theorem foldl_syncRegisterStep_cacheRef : ∀ (l : List CustomWallpaper) (s : Sys) (r : Nat),
    (l.foldl (syncRegisterStep r) s).cacheRef = s.cacheRef := by
  intro l
  induction l with
  | nil => intro s r; rfl
  | cons wp l ih =>
    intro s r
    simp only [List.foldl_cons]
    rw [ih (syncRegisterStep r s wp) r, syncRegisterStep_cacheRef]

/-- The registration fold leaves the captured reference unchanged. -/
theorem foldl_syncRegisterStep_capturedRef : ∀ (l : List CustomWallpaper) (s : Sys) (r : Nat),
    (l.foldl (syncRegisterStep r) s).capturedRef = s.capturedRef := by
  intro l
  induction l with
  | nil => intro s r; rfl
  | cons wp l ih =>
    intro s r
    simp only [List.foldl_cons]
    rw [ih (syncRegisterStep r s wp) r, syncRegisterStep_capturedRef]

/-- The registration fold leaves the custom theme store unchanged. -/
theorem foldl_syncRegisterStep_customThemes : ∀ (l : List CustomWallpaper) (s : Sys) (r : Nat),
    (l.foldl (syncRegisterStep r) s).customThemes = s.customThemes := by
  intro l
  induction l with
  | nil => intro s r; rfl
  | cons wp l ih =>
    intro s r
    simp only [List.foldl_cons]
    rw [ih (syncRegisterStep r s wp) r, syncRegisterStep_customThemes]

/-- The registration fold leaves the custom wallpaper store unchanged. -/
theorem foldl_syncRegisterStep_customWallpapers :
    ∀ (l : List CustomWallpaper) (s : Sys) (r : Nat),
    (l.foldl (syncRegisterStep r) s).customWallpapers = s.customWallpapers := by
  intro l
  induction l with
  | nil => intro s r; rfl
  | cons wp l ih =>
    intro s r
    simp only [List.foldl_cons]
    rw [ih (syncRegisterStep r s wp) r, syncRegisterStep_customWallpapers]

/-- The registration fold keeps the heap size. -/
theorem foldl_syncRegisterStep_heapLength : ∀ (l : List CustomWallpaper) (s : Sys) (r : Nat),
    (l.foldl (syncRegisterStep r) s).heap.length = s.heap.length := by
  intro l
  induction l with
  | nil => intro s r; rfl
  | cons wp l ih =>
    intro s r
    simp only [List.foldl_cons]
    rw [ih (syncRegisterStep r s wp) r, syncRegisterStep_heapLength]

/-- Reading back a heap cell just written. -/
theorem heapGet_heapSet_self (s : Sys) (r : Nat) (m : List (String × Theme))
    (h : r < s.heap.length) : heapGet (heapSet s r m) r = m := by
  simp only [heapGet, heapSet]
  exact listGetD_set_self s.heap r m [] h

/-- syncCustomWallpapers leaves the configuration unchanged. -/
theorem sync_cfg (s : Sys) : (syncCustomWallpapersS s).cfg = s.cfg := by
  simp [syncCustomWallpapersS, foldl_syncRegisterStep_cfg, heapSet, getThemeMapS_cfg]

/-- syncCustomWallpapers leaves the loaded flag unchanged. -/
theorem sync_loaded (s : Sys) : (syncCustomWallpapersS s).loaded = s.loaded := by
  simp [syncCustomWallpapersS, foldl_syncRegisterStep_loaded, heapSet, getThemeMapS_loaded]

/-- syncCustomWallpapers leaves the custom theme store unchanged. -/
theorem sync_customThemes (s : Sys) :
    (syncCustomWallpapersS s).customThemes = s.customThemes := by
  simp [syncCustomWallpapersS, foldl_syncRegisterStep_customThemes, heapSet,
    getThemeMapS_customThemes]

/-- syncCustomWallpapers leaves the custom wallpaper store unchanged. -/
theorem sync_customWallpapers (s : Sys) :
    (syncCustomWallpapersS s).customWallpapers = s.customWallpapers := by
  simp [syncCustomWallpapersS, foldl_syncRegisterStep_customWallpapers, heapSet,
    getThemeMapS_customWallpapers]

/-- A warm cache reference survives syncCustomWallpapers. -/
theorem sync_cacheRef_some (s : Sys) (r : Nat) (h : s.cacheRef = some r) :
    (syncCustomWallpapersS s).cacheRef = some r := by
  simp [syncCustomWallpapersS, getThemeMapS_some s r h, foldl_syncRegisterStep_cacheRef,
    heapSet, h]

/-- ensureCustomThemesLoaded is the identity once loaded. -/
theorem ensure_loaded_id (s : Sys) (h : s.loaded = true) :
    ensureCustomThemesLoadedS s = s := by
  simp [ensureCustomThemesLoadedS, h]

/-- ensureCustomThemesLoaded leaves the configuration unchanged. -/
theorem ensure_cfg (s : Sys) : (ensureCustomThemesLoadedS s).cfg = s.cfg := by
  by_cases h : s.loaded = true
  · rw [ensure_loaded_id s h]
  · have h2 : s.loaded = false := by
      cases h3 : s.loaded with
      | true => exact absurd h3 h
      | false => rfl
    simp [ensureCustomThemesLoadedS, h2, sync_cfg, heapSet, getThemeMapS_cfg]

/-- ensureCustomThemesLoaded always leaves the module loaded. -/
theorem ensure_loaded_true (s : Sys) : (ensureCustomThemesLoadedS s).loaded = true := by
  by_cases h : s.loaded = true
  · rw [ensure_loaded_id s h]; exact h
  · have h2 : s.loaded = false := by
      cases h3 : s.loaded with
      | true => exact absurd h3 h
      | false => rfl
    simp [ensureCustomThemesLoadedS, h2, sync_loaded, heapSet, getThemeMapS_loaded]

/-- getTheme leaves the configuration unchanged. -/
theorem getThemeS_snd_cfg (s : Sys) (themeId : String) :
    (getThemeS s themeId).snd.cfg = s.cfg := by
  simp [getThemeS, getThemeMapS_cfg, ensure_cfg]

/-- Changing only the registry does not affect heap reads. -/
theorem heapGet_setRegistry (x : Sys) (bigR : List WallpaperEntry) (r : Nat) :
    heapGet { x with registry := bigR } r = heapGet x r := rfl

/-- The registration fold cannot create a map entry under a key none of
the registered wallpapers has. -/
theorem foldl_syncRegisterStep_lookup_none :
    ∀ (l : List CustomWallpaper) (s : Sys) (r : Nat) (k : String),
    r < s.heap.length → mapGet (heapGet s r) k = none → (∀ wp ∈ l, wp.id ≠ k) →
    mapGet (heapGet (l.foldl (syncRegisterStep r) s) r) k = none := by
  intro l
  induction l with
  | nil => intro s r k _ h _; exact h
  | cons wp l ih =>
    intro s r k hlen hnone hids
    simp only [List.foldl_cons]
    have hlen2 : r < (syncRegisterStep r s wp).heap.length := by
      rw [syncRegisterStep_heapLength]; exact hlen
    have hnone2 : mapGet (heapGet (syncRegisterStep r s wp) r) k = none := by
      have hg : heapGet (syncRegisterStep r s wp) r =
          mapSet (heapGet s r) wp.id (buildCustomWallpaperTheme s.cfg wp.id) := by
        simp only [syncRegisterStep]
        exact heapGet_heapSet_self _ r _ hlen
      rw [hg]
      rw [mapGet_mapSet_ne (heapGet s r) wp.id k _
        (Ne.symm (hids wp (List.mem_cons_self wp l)))]
      exact hnone
    exact ih (syncRegisterStep r s wp) r k hlen2 hnone2
      (fun u hu => hids u (List.mem_cons_of_mem wp hu))

/-- syncCustomWallpapers on a warm cache keeps the reference warm and
cannot create a map entry under a key foreign to the wallpaper store. -/
theorem sync_preserves_lookup_none (s : Sys) (r : Nat) (k : String)
    (hc : s.cacheRef = some r) (hlen : r < s.heap.length)
    (hnone : mapGet (heapGet s r) k = none)
    (hwp : ∀ w ∈ s.customWallpapers, w.id ≠ k) :
    (syncCustomWallpapersS s).cacheRef = some r ∧
    r < (syncCustomWallpapersS s).heap.length ∧
    mapGet (heapGet (syncCustomWallpapersS s) r) k = none := by
  refine ⟨sync_cacheRef_some s r hc, ?_, ?_⟩
  · simp [syncCustomWallpapersS, getThemeMapS_some s r hc,
      foldl_syncRegisterStep_heapLength, heapSet]
    exact hlen
  · simp only [syncCustomWallpapersS, getThemeMapS_some s r hc]
    apply foldl_syncRegisterStep_lookup_none
    · simp [heapSet]
      exact hlen
    · rw [heapGet_setRegistry, heapGet_heapSet_self s r _ hlen]
      exact mapGet_filter_none _ _ _ hnone
    · exact hwp

/-- Unfolding of a first-time ensureCustomThemesLoaded on a cold cache:
flag set, built-in map allocated and captured, custom color themes
written into it, then wallpapers synced. -/
theorem ensure_fresh_eq (s : Sys) (hl : s.loaded = false) (hc : s.cacheRef = none) :
    ensureCustomThemesLoadedS s =
      syncCustomWallpapersS
        (heapSet
          { s with
            loaded := true
            heap := s.heap ++ [buildBuiltinMap s.cfg]
            cacheRef := some s.heap.length
            capturedRef := some s.heap.length }
          s.heap.length
          (s.customThemes.foldl
            (fun (m : List (String × Theme)) (t : ThemeTemplate) =>
              mapSet m t.id (buildThemeFromTemplate s.cfg t))
            (buildBuiltinMap s.cfg))) := by
  unfold ensureCustomThemesLoadedS
  simp only [hl, Bool.false_eq_true, if_false]
  rw [getThemeMapS_none { s with loaded := true } hc]
  have hg : heapGet
      { { s with loaded := true } with
        heap := { s with loaded := true }.heap ++ [buildBuiltinMap { s with loaded := true }.cfg],
        cacheRef := some { s with loaded := true }.heap.length,
        capturedRef := some { s with loaded := true }.heap.length }
      { s with loaded := true }.heap.length = buildBuiltinMap s.cfg :=
    listGetD_concat_self s.heap _ []
  rw [hg]

/-- A first-time load on a cold cache cannot produce a map entry under
a key that is neither a built-in id, a custom theme id, nor a custom
wallpaper id. -/
theorem fresh_lookup_none (s : Sys) (k : String) (hl : s.loaded = false)
    (hc : s.cacheRef = none)
    (hbm : mapGet (buildBuiltinMap s.cfg) k = none)
    (hth : ∀ t ∈ s.customThemes, t.id ≠ k)
    (hwp : ∀ w ∈ s.customWallpapers, w.id ≠ k) :
    ∃ r, (ensureCustomThemesLoadedS s).cacheRef = some r ∧
      r < (ensureCustomThemesLoadedS s).heap.length ∧
      mapGet (heapGet (ensureCustomThemesLoadedS s) r) k = none := by
  refine ⟨s.heap.length, ?_⟩
  rw [ensure_fresh_eq s hl hc]
  have h1 : (heapSet
      { s with
        loaded := true
        heap := s.heap ++ [buildBuiltinMap s.cfg]
        cacheRef := some s.heap.length
        capturedRef := some s.heap.length }
      s.heap.length
      (s.customThemes.foldl
        (fun (m : List (String × Theme)) (t : ThemeTemplate) =>
          mapSet m t.id (buildThemeFromTemplate s.cfg t))
        (buildBuiltinMap s.cfg))).cacheRef = some s.heap.length := rfl
  have hlen : s.heap.length < (heapSet
      { s with
        loaded := true
        heap := s.heap ++ [buildBuiltinMap s.cfg]
        cacheRef := some s.heap.length
        capturedRef := some s.heap.length }
      s.heap.length
      (s.customThemes.foldl
        (fun (m : List (String × Theme)) (t : ThemeTemplate) =>
          mapSet m t.id (buildThemeFromTemplate s.cfg t))
        (buildBuiltinMap s.cfg))).heap.length := by
    simp [heapSet]
  have h3 : mapGet (heapGet (heapSet
      { s with
        loaded := true
        heap := s.heap ++ [buildBuiltinMap s.cfg]
        cacheRef := some s.heap.length
        capturedRef := some s.heap.length }
      s.heap.length
      (s.customThemes.foldl
        (fun (m : List (String × Theme)) (t : ThemeTemplate) =>
          mapSet m t.id (buildThemeFromTemplate s.cfg t))
        (buildBuiltinMap s.cfg))) s.heap.length) k = none := by
    rw [heapGet_heapSet_self _ _ _ (by simp)]
    have := mapGet_foldl_mapSet_ne (fun (t : ThemeTemplate) => t.id)
      (fun (t : ThemeTemplate) => buildThemeFromTemplate s.cfg t) k
      s.customThemes (buildBuiltinMap s.cfg) hth
    rw [this]
    exact hbm
  exact sync_preserves_lookup_none _ s.heap.length k h1 hlen h3 hwp

/-- getTheme reads the cache cell the ensure pass left warm. -/
theorem getTheme_none_of_state (s : Sys) (themeId : String) (r : Nat)
    (hc : (ensureCustomThemesLoadedS s).cacheRef = some r)
    (hnone : mapGet (heapGet (ensureCustomThemesLoadedS s) r) (resolveThemeId themeId) = none) :
    (getThemeS s themeId).fst = none := by
  simp only [getThemeS]
  rw [getThemeMapS_some _ r hc]
  exact hnone

/-- getTheme on a loaded module with an invalidated cache rebuilds the
map from the built-in themes alone. -/
theorem getTheme_loaded_rebuild (s : Sys) (themeId : String)
    (hl : s.loaded = true) (hc : s.cacheRef = none) :
    (getThemeS s themeId).fst = mapGet (buildBuiltinMap s.cfg) (resolveThemeId themeId) := by
  simp only [getThemeS, ensure_loaded_id s hl]
  rw [getThemeMapS_none s hc]
  have hg : heapGet
      { s with heap := s.heap ++ [buildBuiltinMap s.cfg], cacheRef := some s.heap.length }
      s.heap.length = buildBuiltinMap s.cfg :=
    listGetD_concat_self s.heap _ []
  rw [hg]

/-- The custom-theme subscription callback always nulls the cache. -/
theorem onCustomThemesChanged_cacheRef (s : Sys) :
    (onCustomThemesChanged s).cacheRef = none := by
  cases h : s.capturedRef <;> simp [onCustomThemesChanged, h, heapSet]

/-- The custom-theme subscription callback keeps the configuration. -/
theorem onCustomThemesChanged_cfg (s : Sys) : (onCustomThemesChanged s).cfg = s.cfg := by
  cases h : s.capturedRef <;> simp [onCustomThemesChanged, h, heapSet]

/-- The custom-theme subscription callback keeps the loaded flag. -/
theorem onCustomThemesChanged_loaded (s : Sys) :
    (onCustomThemesChanged s).loaded = s.loaded := by
  cases h : s.capturedRef <;> simp [onCustomThemesChanged, h, heapSet]

/-- The custom-wallpaper subscription callback always nulls the cache. -/
theorem onCustomWallpapersChanged_cacheRef (s : Sys) :
    (onCustomWallpapersChanged s).cacheRef = none := rfl

/-- The custom-wallpaper subscription callback keeps the configuration. -/
theorem onCustomWallpapersChanged_cfg (s : Sys) :
    (onCustomWallpapersChanged s).cfg = s.cfg := by
  simp [onCustomWallpapersChanged, sync_cfg]

/-- The custom-wallpaper subscription callback keeps the loaded flag. -/
theorem onCustomWallpapersChanged_loaded (s : Sys) :
    (onCustomWallpapersChanged s).loaded = s.loaded := by
  simp [onCustomWallpapersChanged, sync_loaded]

/-! ## Claim theorems: cache invalidation -/

/-- Claim C2: any mutation of the custom-theme or custom-wallpaper
store on a loaded module nulls the lookup cache before the next
getTheme, and removing a custom id from its source store (the resolved
id being neither built-in nor colliding with the other store) makes a
subsequent getTheme of it return none. -/
theorem customStore_mutation_invalidation (s : Sys) (id : String)
    (hr : resolveThemeId id = id)
    (h1 : mapGet (buildBuiltinMap s.cfg) id = none)
    (h2 : ∀ w ∈ s.customWallpapers, w.id ≠ id)
    (hcache : s.loaded = false → s.cacheRef = none) :
    (s.loaded = true →
      (∀ themes, (setCustomThemes s themes).cacheRef = none) ∧
      (∀ wps, (setCustomWallpapers s wps).cacheRef = none)) ∧
    (getThemeS (removeCustomTheme s id) id).fst = none ∧
    ((∀ t ∈ s.customThemes, t.id ≠ id) →
      (getThemeS (removeCustomWallpaper s id) id).fst = none) := by
  refine ⟨?_, ?_, ?_⟩
  · intro hl
    constructor
    · intro themes
      simp [setCustomThemes, hl, onCustomThemesChanged_cacheRef]
    · intro wps
      simp [setCustomWallpapers, hl, onCustomWallpapersChanged_cacheRef]
  · by_cases hl : s.loaded = true
    · have hs2 : removeCustomTheme s id =
          onCustomThemesChanged { s with customThemes := s.customThemes.filter (fun t => t.id != id) } := by
        simp [removeCustomTheme, setCustomThemes, hl]
      rw [hs2]
      rw [getTheme_loaded_rebuild _ id
        (by rw [onCustomThemesChanged_loaded]; exact hl)
        (onCustomThemesChanged_cacheRef _)]
      rw [onCustomThemesChanged_cfg]
      rw [hr]
      exact h1
    · have hl2 : s.loaded = false := by
        cases h3 : s.loaded with
        | true => exact absurd h3 hl
        | false => rfl
      have hs2 : removeCustomTheme s id =
          { s with customThemes := s.customThemes.filter (fun t => t.id != id) } := by
        simp [removeCustomTheme, setCustomThemes, hl2]
      rw [hs2]
      have hth : ∀ t ∈ ({ s with customThemes := s.customThemes.filter (fun t => t.id != id) } : Sys).customThemes,
          t.id ≠ id := by
        intro t ht
        have := (List.mem_filter.1 ht).2
        simpa using this
      obtain ⟨r, hcr, _, hnone⟩ := fresh_lookup_none
        { s with customThemes := s.customThemes.filter (fun t => t.id != id) } id
        hl2 (hcache hl2) h1 hth h2
      exact getTheme_none_of_state _ id r hcr (by rw [hr]; exact hnone)
  · intro hth
    by_cases hl : s.loaded = true
    · have hs2 : removeCustomWallpaper s id =
          onCustomWallpapersChanged { s with customWallpapers := s.customWallpapers.filter (fun w => w.id != id) } := by
        simp [removeCustomWallpaper, setCustomWallpapers, hl]
      rw [hs2]
      rw [getTheme_loaded_rebuild _ id
        (by rw [onCustomWallpapersChanged_loaded]; exact hl)
        (onCustomWallpapersChanged_cacheRef _)]
      rw [onCustomWallpapersChanged_cfg]
      rw [hr]
      exact h1
    · have hl2 : s.loaded = false := by
        cases h3 : s.loaded with
        | true => exact absurd h3 hl
        | false => rfl
      have hs2 : removeCustomWallpaper s id =
          { s with customWallpapers := s.customWallpapers.filter (fun w => w.id != id) } := by
        simp [removeCustomWallpaper, setCustomWallpapers, hl2]
      rw [hs2]
      have hwp2 : ∀ w ∈ ({ s with customWallpapers := s.customWallpapers.filter (fun w => w.id != id) } : Sys).customWallpapers,
          w.id ≠ id := by
        intro w hw
        have := (List.mem_filter.1 hw).2
        simpa using this
      obtain ⟨r, hcr, _, hnone⟩ := fresh_lookup_none
        { s with customWallpapers := s.customWallpapers.filter (fun w => w.id != id) } id
        hl2 (hcache hl2) h1 hth hwp2
      exact getTheme_none_of_state _ id r hcr (by rw [hr]; exact hnone)

/-- Witness for C2 on a loaded module holding one custom theme and one
custom wallpaper. -/
theorem customStore_mutation_invalidation_witness :
    resolveThemeId "my-red" = "my-red" ∧
    mapGet (buildBuiltinMap loadedSys.cfg) "my-red" = none ∧
    loadedSys.loaded = true ∧
    (getThemeS (removeCustomTheme loadedSys "my-red") "my-red").fst = none ∧
    (setCustomThemes loadedSys []).cacheRef = none := by
  have hr : resolveThemeId "my-red" = "my-red" := by decide
  have h1 : mapGet (buildBuiltinMap loadedSys.cfg) "my-red" = none := by decide
  have h2 : ∀ w ∈ loadedSys.customWallpapers, w.id ≠ "my-red" := by decide
  have hcache : loadedSys.loaded = false → loadedSys.cacheRef = none := by decide
  have hl : loadedSys.loaded = true := by decide
  have bigH := customStore_mutation_invalidation loadedSys "my-red" hr h1 h2 hcache
  exact ⟨hr, h1, hl, bigH.2.1, (bigH.1 hl).1 []⟩

/-! ## Effect trace lemmas -/

/-- Unfolding of runEffects on a cons. -/
theorem runEffects_cons (v : VisualState) (e : Effect) (l : List Effect) :
    runEffects v (e :: l) = runEffects (runEffect v e) l := rfl

/-- Unfolding of runEffects on an append. -/
theorem runEffects_append (v : VisualState) (l1 l2 : List Effect) :
    runEffects v (l1 ++ l2) = runEffects (runEffects v l1) l2 :=
  List.foldl_append runEffect v l1 l2

/-- A non-glass effect leaves the glass mode unchanged. -/
theorem runEffect_glassMode (v : VisualState) (e : Effect) (he : e.isGlass = false) :
    (runEffect v e).glassMode = v.glassMode := by
  cases e with
  | logError m => rfl
  | setGlassMode b => simp [Effect.isGlass] at he
  | setCssVar n value => simp only [runEffect]; split_ifs <;> rfl
  | setDataTheme i => rfl
  | setBodyStyle p value => simp only [runEffect]; split_ifs <;> rfl

/-- A glass-free trace leaves the glass mode unchanged. -/
theorem runEffects_glassMode : ∀ (l : List Effect) (v : VisualState),
    (∀ e ∈ l, e.isGlass = false) → (runEffects v l).glassMode = v.glassMode := by
  intro l
  induction l with
  | nil => intro v _; rfl
  | cons e l ih =>
    intro v h
    rw [runEffects_cons]
    rw [ih (runEffect v e) (fun u hu => h u (List.mem_cons_of_mem e hu))]
    exact runEffect_glassMode v e (h e (List.mem_cons_self e l))

/-- A non-CSS effect leaves the presentation variables unchanged. -/
theorem runEffect_cssVars (v : VisualState) (e : Effect) (he : e.isCss = false) :
    cssVarsOf (runEffect v e) = cssVarsOf v := by
  cases e with
  | logError m => rfl
  | setGlassMode b => rfl
  | setCssVar n value => simp [Effect.isCss] at he
  | setDataTheme i => rfl
  | setBodyStyle p value => simp only [runEffect]; split_ifs <;> rfl

/-- A CSS-free trace leaves the presentation variables unchanged. -/
theorem runEffects_cssVars : ∀ (l : List Effect) (v : VisualState),
    (∀ e ∈ l, e.isCss = false) → cssVarsOf (runEffects v l) = cssVarsOf v := by
  intro l
  induction l with
  | nil => intro v _; rfl
  | cons e l ih =>
    intro v h
    rw [runEffects_cons]
    rw [ih (runEffect v e) (fun u hu => h u (List.mem_cons_of_mem e hu))]
    exact runEffect_cssVars v e (h e (List.mem_cons_self e l))

/-- A non-body effect leaves the body background unchanged. -/
theorem runEffect_bodyOf (v : VisualState) (e : Effect) (he : e.isBody = false) :
    bodyOf (runEffect v e) = bodyOf v := by
  cases e with
  | logError m => rfl
  | setGlassMode b => rfl
  | setCssVar n value => simp only [runEffect]; split_ifs <;> rfl
  | setDataTheme i => rfl
  | setBodyStyle p value => simp [Effect.isBody] at he

/-- A body-free trace leaves the body background unchanged. -/
theorem runEffects_bodyOf : ∀ (l : List Effect) (v : VisualState),
    (∀ e ∈ l, e.isBody = false) → bodyOf (runEffects v l) = bodyOf v := by
  intro l
  induction l with
  | nil => intro v _; rfl
  | cons e l ih =>
    intro v h
    rw [runEffects_cons]
    rw [ih (runEffect v e) (fun u hu => h u (List.mem_cons_of_mem e hu))]
    exact runEffect_bodyOf v e (h e (List.mem_cons_self e l))

/-- Every effect cssVarEffects emits is a CSS variable write. -/
theorem mem_cssVarEffects_isCss (t : EffectiveTheme) :
    ∀ e ∈ cssVarEffects t, e.isCss = true := by
  intro e he
  simp only [cssVarEffects] at he
  rcases List.mem_append.1 he with h5 | hif
  · simp only [List.mem_cons, List.not_mem_nil, or_false] at h5
    rcases h5 with h | h | h | h | h <;> subst h <;> rfl
  · by_cases hsec : (t.secondaryColor == "") = true
    · rw [if_pos hsec] at hif
      simp at hif
    · rw [if_neg hsec] at hif
      simp only [List.mem_cons, List.not_mem_nil, or_false] at hif
      rcases hif with h | h <;> subst h <;> rfl

/-- Every effect wallpaperEffects emits is a body background write. -/
theorem mem_wallpaperEffects_isBody (s : Sys) (rid : String) :
    ∀ e ∈ wallpaperEffects s rid, e.isBody = true := by
  intro e he
  unfold wallpaperEffects at he
  split at he
  · split at he
    · simp only [List.mem_cons, List.not_mem_nil, or_false] at he
      rcases he with h | h | h | h | h <;> subst h <;> rfl
    · simp at he
  · simp only [List.mem_cons, List.not_mem_nil, or_false] at he
    rcases he with h | h | h | h | h <;> subst h <;> rfl

/-- A CSS variable write is not a glass write. -/
theorem isCss_not_glass (e : Effect) (h : e.isCss = true) : e.isGlass = false := by
  cases e <;> simp [Effect.isCss, Effect.isGlass] at *

/-- A CSS variable write is not a body write. -/
theorem isCss_not_body (e : Effect) (h : e.isCss = true) : e.isBody = false := by
  cases e <;> simp [Effect.isCss, Effect.isBody] at *

/-- A body write is not a glass write. -/
theorem isBody_not_glass (e : Effect) (h : e.isBody = true) : e.isGlass = false := by
  cases e <;> simp [Effect.isBody, Effect.isGlass] at *

/-- A body write is not a CSS variable write. -/
theorem isBody_not_css (e : Effect) (h : e.isBody = true) : e.isCss = false := by
  cases e <;> simp [Effect.isBody, Effect.isCss] at *

/-- Running the CSS writes of an effective theme with a truthy
secondary color installs exactly that theme as the presentation
variables. -/
theorem cssVarsOf_run_cssVarEffects (v : VisualState) (t : EffectiveTheme)
    (hsec : (t.secondaryColor == "") = false) :
    cssVarsOf (runEffects v (cssVarEffects t)) = t := by
  cases t with
  | mk bg cc bc mc ma sc sa =>
    simp only [cssVarEffects]
    rw [if_neg (by simp_all)]
    rfl

/-- applyTheme on an id the map does not resolve emits only the error
log. -/
theorem applyThemeS_of_none (s : Sys) (themeId : String)
    (h : (getThemeS s themeId).fst = none) :
    (applyThemeS s themeId).snd = [Effect.logError ("Theme " ++ themeId ++ " not found")] := by
  simp only [getThemeS] at h
  simp only [applyThemeS]
  rw [h]

/-- applyTheme on a resolvable id emits the glass write, the CSS
writes of the selected effective theme, the data-theme write, and the
wallpaper writes, in this order. -/
theorem applyThemeS_of_some (s : Sys) (themeId : String) (t : Theme)
    (h : (getThemeS s themeId).fst = some t) :
    (applyThemeS s themeId).snd =
      Effect.setGlassMode (isPremiumThemeId s.cfg (resolveThemeId themeId))
        :: (cssVarEffects
              (if isPremiumThemeId s.cfg (resolveThemeId themeId) then
                getPremiumThemeVariables s.cfg
              else
                { backgroundColor := t.backgroundColor
                  cardColor := getModifiedCardColor s.cfg t.id t.cardColor
                  borderColor := getModifiedBorderColor s.cfg t.id t.borderColor
                  mainColor := t.mainColor
                  mainColorAccent := t.mainColorAccent
                  secondaryColor := t.secondaryColor
                  secondaryColorAccent := t.secondaryColorAccent }) ++
            [Effect.setDataTheme (resolveThemeId themeId)] ++
            wallpaperEffects (getThemeS s themeId).snd (resolveThemeId themeId)) := by
  have hcfg : (getThemeMapS (ensureCustomThemesLoadedS s)).2.cfg = s.cfg := by
    rw [getThemeMapS_cfg, ensure_cfg]
  simp only [getThemeS] at h ⊢
  simp only [applyThemeS]
  rw [h, hcfg]

/-! ## Claim theorems: applyTheme -/

/-- Claim C1: applyTheme on an id whose alias-resolved form is absent
from the theme map logs the error and leaves every component of the
visual state (the CSS presentation variables, the data-theme attribute,
the body wallpaper properties and the glass-mode preference) exactly as
it was; being a total function, it throws nothing. -/
theorem applyTheme_unknown_noop (s : Sys) (themeId : String)
    (h : (getThemeS s themeId).fst = none) :
    (applyThemeS s themeId).snd = [Effect.logError ("Theme " ++ themeId ++ " not found")] ∧
    ∀ v : VisualState, runEffects v (applyThemeS s themeId).snd = v := by
  have hsnd := applyThemeS_of_none s themeId h
  refine ⟨hsnd, fun v => ?_⟩
  rw [hsnd]
  rfl

/-- Witness for C1 at a concrete unknown id. -/
theorem applyTheme_unknown_noop_witness :
    (getThemeS emptySys "missing").fst = none ∧
    runEffects priorVisual (applyThemeS emptySys "missing").snd = priorVisual := by
  have h : (getThemeS emptySys "missing").fst = none := by decide
  exact ⟨h, (applyTheme_unknown_noop emptySys "missing" h).2 priorVisual⟩

/-- Claim C10: a successful applyTheme writes the glass-mode preference
first — before any presentation variable — and sets it to exactly
isPremiumThemeId of the alias-resolved id. -/
theorem applyTheme_glassMode_first (s : Sys) (themeId : String) (t : Theme)
    (h : (getThemeS s themeId).fst = some t) :
    (applyThemeS s themeId).snd.head? =
      some (Effect.setGlassMode (isPremiumThemeId s.cfg (resolveThemeId themeId))) ∧
    ∀ v : VisualState, (runEffects v (applyThemeS s themeId).snd).glassMode =
      isPremiumThemeId s.cfg (resolveThemeId themeId) := by
  have hsnd := applyThemeS_of_some s themeId t h
  constructor
  · rw [hsnd]
    rfl
  · intro v
    rw [hsnd, runEffects_cons]
    rw [runEffects_glassMode _ _ ?_]
    · rfl
    · intro e he
      rcases List.mem_append.1 he with h12 | h3
      · rcases List.mem_append.1 h12 with hcss | hdt
        · exact isCss_not_glass e (mem_cssVarEffects_isCss _ e hcss)
        · simp only [List.mem_singleton] at hdt
          subst hdt
          rfl
      · exact isBody_not_glass e (mem_wallpaperEffects_isBody _ _ e h3)

/-- Witness for C10 at a concrete premium theme. -/
theorem applyTheme_glassMode_first_witness :
    (getThemeS witnessSys "glassy").fst = some glassyTheme ∧
    (applyThemeS witnessSys "glassy").snd.head? =
      some (Effect.setGlassMode (isPremiumThemeId witnessSys.cfg (resolveThemeId "glassy"))) ∧
    (runEffects priorVisual (applyThemeS witnessSys "glassy").snd).glassMode = true := by
  have h : (getThemeS witnessSys "glassy").fst = some glassyTheme := by decide
  have bigH := applyTheme_glassMode_first witnessSys "glassy" glassyTheme h
  refine ⟨h, bigH.1, ?_⟩
  rw [bigH.2 priorVisual]
  decide

/-- Claim C3: for a premium resolved id, applyTheme installs the fixed
translucent premium variables (with their derived accents) regardless
of the theme palette found in the map; for a non-premium known id it
installs the theme's own derived colors. -/
theorem applyTheme_premium_selection (s : Sys) (themeId : String) (t : Theme)
    (h : (getThemeS s themeId).fst = some t)
    (hid : t.id = resolveThemeId themeId)
    (hsec : (t.secondaryColor == "") = false) :
    ∀ v : VisualState,
      (isPremiumThemeId s.cfg (resolveThemeId themeId) = true →
        cssVarsOf (runEffects v (applyThemeS s themeId).snd) =
          getPremiumThemeVariables s.cfg) ∧
      (isPremiumThemeId s.cfg (resolveThemeId themeId) = false →
        cssVarsOf (runEffects v (applyThemeS s themeId).snd) =
          { backgroundColor := t.backgroundColor
            cardColor := t.cardColor
            borderColor := t.borderColor
            mainColor := t.mainColor
            mainColorAccent := t.mainColorAccent
            secondaryColor := t.secondaryColor
            secondaryColorAccent := t.secondaryColorAccent }) := by
  have hsnd := applyThemeS_of_some s themeId t h
  have hwpfree : ∀ e ∈ [Effect.setDataTheme (resolveThemeId themeId)] ++
      wallpaperEffects (getThemeS s themeId).snd (resolveThemeId themeId), e.isCss = false := by
    intro e he
    rcases List.mem_append.1 he with hdt | h3
    · simp only [List.mem_singleton] at hdt
      subst hdt
      rfl
    · exact isBody_not_css e (mem_wallpaperEffects_isBody _ _ e h3)
  intro v
  constructor
  · intro hp
    rw [hsnd, if_pos hp, runEffects_cons]
    rw [show cssVarEffects (getPremiumThemeVariables s.cfg) ++
        [Effect.setDataTheme (resolveThemeId themeId)] ++
        wallpaperEffects (getThemeS s themeId).snd (resolveThemeId themeId) =
      cssVarEffects (getPremiumThemeVariables s.cfg) ++
        ([Effect.setDataTheme (resolveThemeId themeId)] ++
          wallpaperEffects (getThemeS s themeId).snd (resolveThemeId themeId)) from by
      simp [List.append_assoc]]
    rw [runEffects_append, runEffects_cssVars _ _ hwpfree]
    exact cssVarsOf_run_cssVarEffects _ (getPremiumThemeVariables s.cfg) rfl
  · intro hp
    rw [hsnd, if_neg (by simp [hp]), runEffects_cons]
    rw [show cssVarEffects
          { backgroundColor := t.backgroundColor
            cardColor := getModifiedCardColor s.cfg t.id t.cardColor
            borderColor := getModifiedBorderColor s.cfg t.id t.borderColor
            mainColor := t.mainColor
            mainColorAccent := t.mainColorAccent
            secondaryColor := t.secondaryColor
            secondaryColorAccent := t.secondaryColorAccent } ++
        [Effect.setDataTheme (resolveThemeId themeId)] ++
        wallpaperEffects (getThemeS s themeId).snd (resolveThemeId themeId) =
      cssVarEffects
          { backgroundColor := t.backgroundColor
            cardColor := getModifiedCardColor s.cfg t.id t.cardColor
            borderColor := getModifiedBorderColor s.cfg t.id t.borderColor
            mainColor := t.mainColor
            mainColorAccent := t.mainColorAccent
            secondaryColor := t.secondaryColor
            secondaryColorAccent := t.secondaryColorAccent } ++
        ([Effect.setDataTheme (resolveThemeId themeId)] ++
          wallpaperEffects (getThemeS s themeId).snd (resolveThemeId themeId)) from by
      simp [List.append_assoc]]
    rw [runEffects_append, runEffects_cssVars _ _ hwpfree]
    have hmod1 : getModifiedCardColor s.cfg t.id t.cardColor = t.cardColor := by
      unfold getModifiedCardColor
      rw [hid, hp]
      rfl
    have hmod2 : getModifiedBorderColor s.cfg t.id t.borderColor = t.borderColor := by
      unfold getModifiedBorderColor
      rw [hid, hp]
      rfl
    rw [hmod1, hmod2]
    exact cssVarsOf_run_cssVarEffects _ _ hsec

/-- Witness for C3 at a concrete premium and a concrete plain theme. -/
theorem applyTheme_premium_selection_witness :
    (getThemeS witnessSys "glassy").fst = some glassyTheme ∧
    (getThemeS witnessSys "alpha").fst = some alphaTheme ∧
    cssVarsOf (runEffects priorVisual (applyThemeS witnessSys "glassy").snd) =
      getPremiumThemeVariables witnessSys.cfg ∧
    cssVarsOf (runEffects priorVisual (applyThemeS witnessSys "alpha").snd) =
      { backgroundColor := alphaTheme.backgroundColor
        cardColor := alphaTheme.cardColor
        borderColor := alphaTheme.borderColor
        mainColor := alphaTheme.mainColor
        mainColorAccent := alphaTheme.mainColorAccent
        secondaryColor := alphaTheme.secondaryColor
        secondaryColorAccent := alphaTheme.secondaryColorAccent } := by
  have hg : (getThemeS witnessSys "glassy").fst = some glassyTheme := by decide
  have ha : (getThemeS witnessSys "alpha").fst = some alphaTheme := by decide
  refine ⟨hg, ha, ?_, ?_⟩
  · exact ((applyTheme_premium_selection witnessSys "glassy" glassyTheme hg (by decide)
      (by decide)) priorVisual).1 (by decide)
  · exact ((applyTheme_premium_selection witnessSys "alpha" alphaTheme ha (by decide)
      (by decide)) priorVisual).2 (by decide)

/-- Claim C4 (amended): for a known id, applyTheme clears all five body
background properties exactly when the resolved theme declares no
wallpaper; it sets them to the wallpaper values exactly when it
declares one that the registry resolves; when the declared wallpaper is
absent from the registry it leaves the body properties untouched. -/
theorem applyTheme_wallpaper (s : Sys) (themeId : String) (t : Theme)
    (h : (getThemeS s themeId).fst = some t) :
    ∀ v : VisualState,
      (getThemeDefaultWallpaperId s.cfg (resolveThemeId themeId) = none →
        bodyOf (runEffects v (applyThemeS s themeId).snd) =
          { backgroundImage := ""
            backgroundSize := ""
            backgroundPosition := ""
            backgroundRepeat := ""
            backgroundAttachment := "" }) ∧
      (∀ wid w, getThemeDefaultWallpaperId s.cfg (resolveThemeId themeId) = some wid →
        ((getThemeS s themeId).snd).registry.find? (fun e => e.id == wid) = some w →
        bodyOf (runEffects v (applyThemeS s themeId).snd) =
          { backgroundImage := wallpaperBackgroundImage w
            backgroundSize := "cover"
            backgroundPosition := "center"
            backgroundRepeat := "no-repeat"
            backgroundAttachment := "fixed" }) ∧
      (∀ wid, getThemeDefaultWallpaperId s.cfg (resolveThemeId themeId) = some wid →
        ((getThemeS s themeId).snd).registry.find? (fun e => e.id == wid) = none →
        bodyOf (runEffects v (applyThemeS s themeId).snd) = bodyOf v) := by
  have hsnd := applyThemeS_of_some s themeId t h
  have hcfg2 : (getThemeS s themeId).snd.cfg = s.cfg := getThemeS_snd_cfg s themeId
  intro v
  have hbody : ∀ w2 : List Effect,
      bodyOf (runEffects v (applyThemeS s themeId).snd) =
        bodyOf (runEffects
          (runEffects (runEffect v (Effect.setGlassMode
            (isPremiumThemeId s.cfg (resolveThemeId themeId))))
            (cssVarEffects
              (if isPremiumThemeId s.cfg (resolveThemeId themeId) then
                getPremiumThemeVariables s.cfg
              else
                { backgroundColor := t.backgroundColor
                  cardColor := getModifiedCardColor s.cfg t.id t.cardColor
                  borderColor := getModifiedBorderColor s.cfg t.id t.borderColor
                  mainColor := t.mainColor
                  mainColorAccent := t.mainColorAccent
                  secondaryColor := t.secondaryColor
                  secondaryColorAccent := t.secondaryColorAccent }) ++
              [Effect.setDataTheme (resolveThemeId themeId)]))
          (wallpaperEffects (getThemeS s themeId).snd (resolveThemeId themeId))) := by
    intro _
    rw [hsnd, runEffects_cons, runEffects_append]
  have hpre : bodyOf (runEffects
      (runEffect v (Effect.setGlassMode (isPremiumThemeId s.cfg (resolveThemeId themeId))))
      (cssVarEffects
        (if isPremiumThemeId s.cfg (resolveThemeId themeId) then
          getPremiumThemeVariables s.cfg
        else
          { backgroundColor := t.backgroundColor
            cardColor := getModifiedCardColor s.cfg t.id t.cardColor
            borderColor := getModifiedBorderColor s.cfg t.id t.borderColor
            mainColor := t.mainColor
            mainColorAccent := t.mainColorAccent
            secondaryColor := t.secondaryColor
            secondaryColorAccent := t.secondaryColorAccent }) ++
        [Effect.setDataTheme (resolveThemeId themeId)])) = bodyOf v := by
    rw [runEffects_bodyOf _ _ ?_]
    · exact runEffect_bodyOf v _ rfl
    · intro e he
      rcases List.mem_append.1 he with hcss | hdt
      · exact isCss_not_body e (mem_cssVarEffects_isCss _ e hcss)
      · simp only [List.mem_singleton] at hdt
        subst hdt
        rfl
  refine ⟨?_, ?_, ?_⟩
  · intro hn
    have hwp : wallpaperEffects (getThemeS s themeId).snd (resolveThemeId themeId) =
        [Effect.setBodyStyle "backgroundImage" "",
         Effect.setBodyStyle "backgroundSize" "",
         Effect.setBodyStyle "backgroundPosition" "",
         Effect.setBodyStyle "backgroundRepeat" "",
         Effect.setBodyStyle "backgroundAttachment" ""] := by
      unfold wallpaperEffects
      simp only [hcfg2, hn]
    rw [hbody [], hwp]
    rfl
  · intro wid w hdecl hfind
    have hwp : wallpaperEffects (getThemeS s themeId).snd (resolveThemeId themeId) =
        [Effect.setBodyStyle "backgroundImage" (wallpaperBackgroundImage w),
         Effect.setBodyStyle "backgroundSize" "cover",
         Effect.setBodyStyle "backgroundPosition" "center",
         Effect.setBodyStyle "backgroundRepeat" "no-repeat",
         Effect.setBodyStyle "backgroundAttachment" "fixed"] := by
      unfold wallpaperEffects
      simp only [hcfg2, hdecl, hfind]
    rw [hbody [], hwp]
    rfl
  · intro wid hdecl hfind
    have hwp : wallpaperEffects (getThemeS s themeId).snd (resolveThemeId themeId) = [] := by
      unfold wallpaperEffects
      simp only [hcfg2, hdecl, hfind]
    rw [hbody [], hwp]
    exact hpre

/-- Witness for C4 (amended): a theme without a wallpaper clears the
body properties, a premium theme with a registered wallpaper sets them. -/
theorem applyTheme_wallpaper_witness :
    (getThemeS witnessSys "alpha").fst = some alphaTheme ∧
    getThemeDefaultWallpaperId witnessSys.cfg (resolveThemeId "alpha") = none ∧
    bodyOf (runEffects priorVisual (applyThemeS witnessSys "alpha").snd) =
      { backgroundImage := ""
        backgroundSize := ""
        backgroundPosition := ""
        backgroundRepeat := ""
        backgroundAttachment := "" } ∧
    getThemeDefaultWallpaperId witnessSys.cfg (resolveThemeId "glassy") = some "w1" ∧
    bodyOf (runEffects priorVisual (applyThemeS witnessSys "glassy").snd) =
      { backgroundImage := wallpaperBackgroundImage
          { id := "w1", name := "Wall", url := "u1", urlWebp := "" }
        backgroundSize := "cover"
        backgroundPosition := "center"
        backgroundRepeat := "no-repeat"
        backgroundAttachment := "fixed" } := by
  have ha : (getThemeS witnessSys "alpha").fst = some alphaTheme := by decide
  have hg : (getThemeS witnessSys "glassy").fst = some glassyTheme := by decide
  have hn : getThemeDefaultWallpaperId witnessSys.cfg (resolveThemeId "alpha") = none := by decide
  have hd : getThemeDefaultWallpaperId witnessSys.cfg (resolveThemeId "glassy") = some "w1" := by
    decide
  have hf : ((getThemeS witnessSys "glassy").snd).registry.find? (fun e => e.id == "w1") =
      some { id := "w1", name := "Wall", url := "u1", urlWebp := "" } := by decide
  refine ⟨ha, hn, ?_, hd, ?_⟩
  · exact ((applyTheme_wallpaper witnessSys "alpha" alphaTheme ha) priorVisual).1 hn
  · exact ((applyTheme_wallpaper witnessSys "glassy" glassyTheme hg) priorVisual).2.1
      "w1" { id := "w1", name := "Wall", url := "u1", urlWebp := "" } hd hf

/-- Counterexample for C4 as stated: the only theme of dangleSys
declares wallpaper w-missing, the registry has no such entry, and a
successful applyTheme then emits no body write at all — the prior
(nonempty) body background persists instead of being set or cleared. -/
theorem applyTheme_wallpaper_counterexample :
    (getThemeS dangleSys "dangle").fst.isSome = true ∧
    getThemeDefaultWallpaperId dangleSys.cfg (resolveThemeId "dangle") = some "w-missing" ∧
    ((applyThemeS dangleSys "dangle").snd.filter (fun e => e.isBody)) = [] ∧
    bodyOf (runEffects priorVisual (applyThemeS dangleSys "dangle").snd) = bodyOf priorVisual ∧
    priorVisual.bodyBackgroundImage ≠ "" := by
  decide

end KanaDojo
